import Mathlib

/-!
# Chart.js dataset construction (`chartjs.go`)

A shallow embedding of `labelsAndDatasets`, `marshalLabels`, `marshalSimpleData`,
`tooltipCallback`, `data` and `scatterRadius`, followed by the properties established about
them.

Conventions of the embedding:

* a Go slice is a `List`; indexing a slice out of range panics, which is the
  `Failure.indexOutOfRange` result; `log.Fatalf` is the `Failure.fatal` result;
* `float64` values are exact rationals, their text rendering (`%g`, `%v`) is a parameter;
* `time.Time` values are integers, their `Format` rendering is a parameter;
* the colour functions and `preprocessLabel` live in other files of the package and are
  parameters as well;
* ranging over a Go map visits its entries in an unspecified order, which is a parameter
  of type `MapOrder`;
* a labelled loop is a recursive function over the indices still to visit, with the local
  variables of the loop as arguments.
-/

namespace Chart

/-! ## Run-time failures and fallible loops -/

/-- The two ways in which the Go code stops without returning a value. -/
inductive Failure where
  | indexOutOfRange : Failure
  | fatal (msg : String) : Failure
deriving DecidableEq

/-- Slice indexing `xs[i]`: panics when `i` is out of range. -/
def index {α : Type} (xs : List α) (i : Nat) : Except Failure α :=
  match xs[i]? with
  | some x => Except.ok x
  | none => Except.error Failure.indexOutOfRange

/-- A `for` loop that builds one output element per input element and stops at the
first failing iteration. -/
def mapE {α β : Type} (f : α → Except Failure β) : List α → Except Failure (List β)
  | [] => Except.ok []
  | a :: as =>
    match f a with
    | Except.error e => Except.error e
    | Except.ok b =>
      match mapE f as with
      | Except.error e => Except.error e
      | Except.ok bs => Except.ok (b :: bs)

/-! ## Collaborators defined outside `chartjs.go` -/

/-- A timestamp (`time.Time`), as a count of nanoseconds. -/
abbrev Time := Int

/-- The functions that `chartjs.go` calls but does not define. -/
structure Collaborators where
  /-- The package function `colorFirstN(n)`. -/
  colorFirstN : Nat → String
  /-- The package function `colorRepeat(i, n)`. -/
  colorRepeat : Nat → Nat → String
  /-- The package function `colorIndex(i)`. -/
  colorIndex : Nat → String
  /-- The package function `preprocessLabel(s)`. -/
  preprocessLabel : String → String
  /-- The rendering `fmt.Sprintf("%g", f)` of a number. -/
  formatG : ℚ → String
  /-- The rendering `fmt.Sprintf("%v", f)` of a number. -/
  formatV : ℚ → String
  /-- The rendering `t.Format("2006-01-02T15:04:05.999999999")` of a timestamp. -/
  formatTime : Time → String

/-! ## Data model -/

/-- The Go struct `inData`. -/
structure inData where
  ChartType : String
  FSS : List (List ℚ)
  TSS : List (List Time)
  SSS : List (List String)
  MinFSS : List ℚ
  MaxFSS : List ℚ
  Title : String
  ScaleType : String
  XLabel : String
  YLabel : String
  ZeroBased : Bool
deriving DecidableEq

/-- The Go method `hasFloats`. -/
def inData.hasFloats (i : inData) : Bool := decide (i.FSS.length > 0)

/-- The Go method `hasStrings`. -/
def inData.hasStrings (i : inData) : Bool := decide (i.SSS.length > 0)

/-- The Go method `hasTimes`. -/
def inData.hasTimes (i : inData) : Bool := decide (i.TSS.length > 0)

/-- The Go method `timeFieldLen`. -/
def inData.timeFieldLen (i : inData) : Nat :=
  if !i.hasTimes then 0 else (i.TSS.headD []).length

/-- The Go method `floatFieldLen`. -/
def inData.floatFieldLen (i : inData) : Nat :=
  if !i.hasFloats then 0 else (i.FSS.headD []).length

/-- The Go struct `cjsChart`. -/
structure cjsChart where
  inData : Chart.inData
deriving DecidableEq

/-- The Go struct `cjsDataPoint`; every field starts at its zero value. -/
structure cjsDataPoint where
  X : String := ""
  Y : String := ""
  R : String := ""
  UsesR : Bool := false
deriving DecidableEq

/-- The Go struct `cjsDataset`; every field starts at its zero value. -/
structure cjsDataset where
  SimpleData : List String := []
  ComplexData : List cjsDataPoint := []
  BackgroundColor : String := ""
  Fill : Bool := false
  Label : String := ""
  BorderColor : String := ""
deriving DecidableEq

/-- The Go struct `cjsData`; every field starts at its zero value. -/
structure cjsData where
  ChartType : String := ""
  ActualChartType : String := ""
  Title : String := ""
  ScaleType : String := ""
  XLabel : String := ""
  YLabel : String := ""
  ZeroBased : Bool := false
  Labels : String := ""
  Datasets : List cjsDataset := []
  TooltipCallback : String := ""
  UsesTimeScale : Bool := false
deriving DecidableEq

/-! ## `scatterRadius`, `marshalSimpleData`, `marshalLabels` -/

/-- The Go function `scatterRadius`, over exact arithmetic. -/
def scatterRadius (x min max : ℚ) : ℚ :=
  if max - min < 50 then x - min + 4 else (4 : ℚ) + (x - min) / (max - min) * 50

/-- The Go function `scatterRadius` with the division made partial: the quotient exists
only when the divisor is not zero. -/
def scatterRadiusGuarded (x min max : ℚ) : Option ℚ :=
  if max - min < 50 then some (x - min + 4)
  else if max - min = 0 then none
  else some ((4 : ℚ) + (x - min) / (max - min) * 50)

/-- The Go method `marshalSimpleData`: column `col` of every numeric row, rendered. -/
def cjsChart.marshalSimpleData (env : Collaborators) (c : cjsChart) (col : Nat) :
    Except Failure (List String) :=
  mapE (fun f => (index f col).map env.formatG) c.inData.FSS

/-- The backtick character, which delimits the labels of a time axis. -/
def backtick : String := String.singleton (Char.ofNat 96)

/-- The single quote character, which delimits a timestamp token. -/
def quote : String := String.singleton (Char.ofNat 39)

/-- The slice `ls` that `marshalLabels` fills before joining it. -/
def cjsChart.labelList (env : Collaborators) (c : cjsChart) : Except Failure (List String) :=
  if !c.inData.hasStrings && c.inData.hasTimes then
    mapE (fun ts => (index ts 0).map env.formatTime) c.inData.TSS
  else if !c.inData.hasStrings then
    Except.ok ((List.range c.inData.FSS.length).map (fun i => "slice " ++ toString i))
  else
    mapE (fun l => (index l 0).map env.preprocessLabel) c.inData.SSS

/-- The Go method `marshalLabels`: the label slice, joined. -/
def cjsChart.marshalLabels (env : Collaborators) (c : cjsChart) : Except Failure String :=
  (c.labelList env).map (fun ls =>
    if !c.inData.hasStrings && c.inData.hasTimes then
      backtick ++ String.intercalate (backtick ++ "," ++ backtick) ls ++ backtick
    else
      String.intercalate "," ls)

/-! ## Go maps -/

/-- A Go map, as the list of its entries in the order in which the keys were first
stored; every key occurs once. -/
abbrev GoMap (κ β : Type) := List (κ × β)

/-- The lookup `v, ok := m[k]`. -/
def GoMap.get? {κ β : Type} [DecidableEq κ] : GoMap κ β → κ → Option β
  | [], _ => none
  | (k', v) :: m, k => if k' = k then some v else GoMap.get? m k

/-- The assignment `m[k] = v`. -/
def GoMap.set {κ β : Type} [DecidableEq κ] : GoMap κ β → κ → β → GoMap κ β
  | [], k, v => [(k, v)]
  | (k', v') :: m, k, v => if k' = k then (k', v) :: m else (k', v') :: GoMap.set m k v

/-- An order in which `range` may visit the entries of a map: Go leaves it unspecified,
so any rule that lists every entry once is admissible. -/
structure MapOrder where
  visit : List (String × cjsDataset) → List (String × cjsDataset)
  perm : ∀ l, (visit l).Perm l

/-- The iteration that happens to follow the order of first insertion. -/
def MapOrder.firstSeen : MapOrder := ⟨fun l => l, fun l => List.Perm.refl l⟩

/-- The iteration that happens to follow the reverse order of first insertion. -/
def MapOrder.lastSeen : MapOrder := ⟨List.reverse, fun l => List.reverse_perm l⟩

/-! ## `labelsAndDatasets` -/

/-- The reclassification at the top of `labelsAndDatasets`: the value of
`c.inData.ChartType` on which the `switch` dispatches. -/
def inData.resolveChartType (i : inData) : String :=
  if i.ChartType = "line" ∧ (!i.hasStrings || i.hasTimes) = true then
    if (i.hasStrings = true) ∧ i.floatFieldLen + i.timeFieldLen ≥ 2 then
      "denormalised-scatterline"
    else
      "scatterline"
  else
    i.ChartType

/-- The body of the inner loop of the `scatterline` case for column `n` and row `i`, up
to the `append`: the point built, or `none` for `break outerLoop`. -/
def cjsChart.scatterlinePoint (env : Collaborators) (c : cjsChart) (n i : Nat) :
    Except Failure (Option cjsDataPoint) :=
  if c.inData.hasTimes then do
    let ts ← index c.inData.TSS i
    let t ← index ts 0
    let fs ← index c.inData.FSS i
    let f ← index fs n
    pure (some { X := quote ++ env.formatTime t ++ quote, Y := env.formatG f })
  else do
    let row0 ← index c.inData.FSS 0
    if (n : Int) = (row0.length : Int) - 1 then
      pure none
    else do
      let fs ← index c.inData.FSS i
      let x ← index fs 0
      let y ← index fs (n + 1)
      pure (some { X := env.formatG x, Y := env.formatG y })

/-- The inner loop of the `scatterline` case over the rows still to visit, with the
points `ds` collected so far and the flag `usesTimeScale`; the first component is
`none` after `break outerLoop`. -/
def cjsChart.scatterlineInner (env : Collaborators) (c : cjsChart) (n : Nat) :
    List Nat → List cjsDataPoint → Bool → Except Failure (Option (List cjsDataPoint) × Bool)
  | [], ds, u => Except.ok (some ds, u)
  | i :: is, ds, u =>
    match c.scatterlinePoint env n i with
    | Except.error e => Except.error e
    | Except.ok none => Except.ok (none, u || c.inData.hasTimes)
    | Except.ok (some d) =>
      cjsChart.scatterlineInner env c n is (ds ++ [d]) (u || c.inData.hasTimes)

/-- The outer loop of the `scatterline` case over the columns still to visit. -/
def cjsChart.scatterlineOuter (env : Collaborators) (c : cjsChart) (rows : List Nat) :
    List Nat → List cjsDataset → Bool → Except Failure (List cjsDataset × Bool)
  | [], dss, u => Except.ok (dss, u)
  | n :: ns, dss, u =>
    match c.scatterlineInner env n rows [] u with
    | Except.error e => Except.error e
    | Except.ok (none, u') => Except.ok (dss, u')
    | Except.ok (some ds, u') =>
      cjsChart.scatterlineOuter env c rows ns
        (dss ++ [{ Fill := false, Label := "category " ++ toString n, ComplexData := ds,
                   BorderColor := env.colorIndex n, BackgroundColor := env.colorIndex n }]) u'

/-- The point that the `denormalised-scatterline` case builds for row `i`. -/
def cjsChart.denormPoint (env : Collaborators) (c : cjsChart) (i : Nat) :
    Except Failure cjsDataPoint :=
  if c.inData.hasTimes then do
    let ts ← index c.inData.TSS i
    let t ← index ts 0
    let fs ← index c.inData.FSS i
    let f ← index fs 0
    pure { X := quote ++ env.formatTime t ++ quote, Y := env.formatG f }
  else do
    let fs ← index c.inData.FSS i
    let x ← index fs 0
    let y ← index fs 1
    pure { X := env.formatG x, Y := env.formatG y }

/-- The first text value `c.inData.SSS[i][0]` of row `i`. -/
def cjsChart.firstText (c : cjsChart) (i : Nat) : Except Failure String := do
  let ss ← index c.inData.SSS i
  index ss 0

/-- The update of the map `mdss` with the point `d` of a row of category `ds`. -/
def denormStore (env : Collaborators) (mdss : GoMap String cjsDataset) (ds : String)
    (d : cjsDataPoint) : GoMap String cjsDataset :=
  match GoMap.get? mdss ds with
  | none =>
    GoMap.set mdss ds
      { Fill := false, Label := ds, ComplexData := [d],
        BorderColor := env.colorIndex mdss.length,
        BackgroundColor := env.colorIndex mdss.length }
  | some m => GoMap.set mdss ds { m with ComplexData := m.ComplexData ++ [d] }

/-- The row loop of the `denormalised-scatterline` case over the rows still to visit. -/
def cjsChart.denormLoop (env : Collaborators) (c : cjsChart) :
    List Nat → GoMap String cjsDataset → Bool → Except Failure (GoMap String cjsDataset × Bool)
  | [], mdss, u => Except.ok (mdss, u)
  | i :: is, mdss, u =>
    match c.denormPoint env i with
    | Except.error e => Except.error e
    | Except.ok d =>
      match c.firstText i with
      | Except.error e => Except.error e
      | Except.ok ds =>
        cjsChart.denormLoop env c is (denormStore env mdss ds d) (u || c.inData.hasTimes)

/-- The first loop of the `scatter` case over the text rows still to visit: the maps
`css` (category to index) and `ils` (index to category) and the counter `i`. -/
def scatterCategories :
    List (List String) → GoMap String Nat → GoMap Nat String → Nat →
      GoMap String Nat × GoMap Nat String × Nat
  | [], css, ils, i => (css, ils, i)
  | [] :: _, css, ils, i => (css, ils, i)
  | (s :: _) :: rest, css, ils, i =>
    match GoMap.get? css s with
    | none => scatterCategories rest (GoMap.set css s i) (GoMap.set ils i s) (i + 1)
    | some _ => scatterCategories rest css ils i

/-- The slice assignment `xs[j] = v`: panics when `j` is out of range. -/
def assign {α : Type} (xs : List α) (j : Nat) (v : α) : Except Failure (List α) :=
  if j < xs.length then Except.ok (xs.set j v) else Except.error Failure.indexOutOfRange

/-- The loop `for j := 0; j < i; j++` of the `scatter` case over the indices still to
visit, storing the empty dataset of category `ils[j]` at position `j`. -/
def scatterInit (env : Collaborators) (ils : GoMap Nat String) :
    List Nat → List cjsDataset → Except Failure (List cjsDataset)
  | [], dss => Except.ok dss
  | j :: js, dss =>
    match assign dss j
        { Fill := true, Label := (GoMap.get? ils j).getD "", ComplexData := [],
          BackgroundColor := env.colorIndex j, BorderColor := env.colorIndex j } with
    | Except.error e => Except.error e
    | Except.ok dss' => scatterInit env ils js dss'

/-- The radius token of a row `fs` whose radius column is `col`. -/
def cjsChart.radiusToken (env : Collaborators) (c : cjsChart) (fs : List ℚ) (col : Nat) :
    Except Failure String :=
  if fs.length ≥ col + 1 then do
    let v ← index fs col
    let lo ← index c.inData.MinFSS col
    let hi ← index c.inData.MaxFSS col
    pure (env.formatV (scatterRadius v lo hi))
  else
    pure "4"

/-- The point that the `scatter` case builds for row `i`. -/
def cjsChart.scatterPoint (env : Collaborators) (c : cjsChart) (i : Nat) :
    Except Failure cjsDataPoint :=
  if c.inData.hasTimes then do
    let ts ← index c.inData.TSS i
    let t ← index ts 0
    let fs ← index c.inData.FSS i
    let y ← index fs 0
    let r ← c.radiusToken env fs 1
    pure { UsesR := true, X := quote ++ env.formatTime t ++ quote, Y := env.formatG y, R := r }
  else do
    let fs ← index c.inData.FSS i
    let x ← index fs 0
    let y ← if fs.length ≥ 2 then (index fs 1).map env.formatG else pure "0"
    let r ← c.radiusToken env fs 2
    pure { UsesR := true, X := env.formatG x, Y := y, R := r }

/-- The dataset index `j` that the `scatter` case chooses for row `i`. -/
def cjsChart.scatterBucket (c : cjsChart) (css : GoMap String Nat) (i : Nat) :
    Except Failure Nat :=
  if c.inData.hasStrings then
    (c.firstText i).map (fun s => (GoMap.get? css s).getD 0)
  else
    pure 0

/-- The statements `cd := dss[j].ComplexData; cd = append(cd, d); dss[j].ComplexData = cd`. -/
def appendPoint (dss : List cjsDataset) (j : Nat) (d : cjsDataPoint) :
    Except Failure (List cjsDataset) :=
  match index dss j with
  | Except.error e => Except.error e
  | Except.ok m => assign dss j { m with ComplexData := m.ComplexData ++ [d] }

/-- The row loop of the `scatter` case over the rows still to visit. -/
def cjsChart.scatterLoop (env : Collaborators) (c : cjsChart) (css : GoMap String Nat) :
    List Nat → List cjsDataset → Bool → Except Failure (List cjsDataset × Bool)
  | [], dss, u => Except.ok (dss, u)
  | i :: is, dss, u =>
    match c.scatterPoint env i with
    | Except.error e => Except.error e
    | Except.ok d =>
      match c.scatterBucket css i with
      | Except.error e => Except.error e
      | Except.ok j =>
        match appendPoint dss j d with
        | Except.error e => Except.error e
        | Except.ok dss' =>
          cjsChart.scatterLoop env c css is dss' (u || c.inData.hasTimes)

/-- The branch that the `pie` case and the single-column `bar` case share. -/
def cjsChart.singleSeries (env : Collaborators) (c : cjsChart) (kind : String) :
    Except Failure cjsData := do
  let labels ← c.marshalLabels env
  let sd ← c.marshalSimpleData env 0
  pure { ChartType := kind, ActualChartType := kind, Labels := labels,
         Datasets := [{ Fill := true, SimpleData := sd,
                        BackgroundColor := env.colorFirstN c.inData.FSS.length }] }

/-- The `switch` of `labelsAndDatasets`, on the chart type already reclassified. -/
def cjsChart.dispatch (env : Collaborators) (order : MapOrder) (c : cjsChart) :
    Except Failure cjsData :=
  if c.inData.ChartType = "pie" then
    c.singleSeries env "pie"
  else if c.inData.ChartType = "bar" then do
    let row0 ← index c.inData.FSS 0
    if row0.length = 1 then
      c.singleSeries env "bar"
    else do
      let ds ← mapE (fun i => (c.marshalSimpleData env i).map (fun sd =>
          ({ Fill := true, Label := "category " ++ toString i, SimpleData := sd,
             BackgroundColor := env.colorRepeat i c.inData.FSS.length } : cjsDataset)))
        (List.range row0.length)
      let labels ← c.marshalLabels env
      pure { ChartType := "bar", ActualChartType := "bar", Labels := labels, Datasets := ds }
  else if c.inData.ChartType = "line" then do
    let row0 ← index c.inData.FSS 0
    let ds ← mapE (fun i => (c.marshalSimpleData env i).map (fun sd =>
        ({ Fill := false, Label := "category " ++ toString i, SimpleData := sd,
           BorderColor := env.colorIndex i, BackgroundColor := env.colorIndex i } : cjsDataset)))
      (List.range row0.length)
    let labels ← c.marshalLabels env
    pure { ChartType := "line", ActualChartType := "line", Labels := labels, Datasets := ds }
  else if c.inData.ChartType = "scatterline" then do
    let row0 ← index c.inData.FSS 0
    let (dss, u) ← c.scatterlineOuter env (List.range c.inData.FSS.length)
      (List.range row0.length) [] false
    pure { ChartType := "line", ActualChartType := "scatterline", Datasets := dss,
           UsesTimeScale := u }
  else if c.inData.ChartType = "denormalised-scatterline" then do
    let (mdss, u) ← c.denormLoop env (List.range c.inData.FSS.length) [] false
    pure { ChartType := "line", ActualChartType := "scatterline",
           Datasets := (order.visit mdss).map Prod.snd, UsesTimeScale := u }
  else if c.inData.ChartType = "scatter" then do
    let (css, ils, i) := scatterCategories c.inData.SSS [] [] 0
    let dss0 := List.replicate i ({} : cjsDataset)
    let dss1 :=
      if i = 0 then
        dss0 ++ [{ Fill := true, Label := "category 0", ComplexData := [],
                   BackgroundColor := env.colorIndex 0, BorderColor := env.colorIndex 0 }]
      else dss0
    let dss2 ← scatterInit env ils (List.range i) dss1
    let (dss, u) ← c.scatterLoop env css (List.range c.inData.FSS.length) dss2 false
    pure { ChartType := "bubble", ActualChartType := "scatter", Datasets := dss,
           UsesTimeScale := u }
  else
    Except.error (Failure.fatal ("Unknown chart type: " ++ c.inData.ChartType))

/-- The Go method `labelsAndDatasets`: reclassify the chart type in the receiver's copy of
the input, then dispatch on it. -/
def cjsChart.labelsAndDatasets (env : Collaborators) (order : MapOrder) (c : cjsChart) :
    Except Failure cjsData :=
  cjsChart.dispatch env order
    { c with inData := { c.inData with ChartType := c.inData.resolveChartType } }

/-! ## `tooltipCallback` and `data` -/

/-- The text that `tooltipCallback` returns in the `pie` case. -/
def pieTooltip : String :=
    "\n" ++
    "                    var value = data.datasets[0].data[tti.index];\n" ++
    "                    var total = data.datasets[0].data.reduce((a, b) => a + b, 0)\n" ++
    "                    var label = data.labels[tti.index];\n" ++
    "                    var percentage = Math.round(value / total * 100);\n" ++
    "                    return label + \x27: \x27 + percentage + \x27%\x27;\n" ++
    "    "

/-- The text that `tooltipCallback` returns in the `line` and `scatterline` case. -/
def lineTooltip : String :=
    "\n" ++
    "                    var value = data.datasets[tti.datasetIndex].data[tti.index];\n" ++
    "                    if (value.y) \x7b\n" ++
    "                        value = value.y\n" ++
    "                    \x7d\n" ++
    "                    return value;\n" ++
    "    "

/-- The text that `tooltipCallback` returns in the `scatter` case. -/
def scatterTooltip : String :=
    "\n" ++
    "                    var value = data.datasets[tti.datasetIndex].data[tti.index];\n" ++
    "                    var label = data.datasets[tti.datasetIndex].label;\n" ++
    "                    return (label ? label + \x27: \x27 : \x27\x27) + \x27(\x27 + value.x + \x27, \x27 + value.y + \x27)\x27;\n" ++
    "    "

/-- The text that `tooltipCallback` returns in the `bar` case. -/
def barTooltip : String :=
    "\n" ++
    "                    var value = data.datasets[tti.datasetIndex].data[tti.index];\n" ++
    "                    var label = data.labels[tti.index];\n" ++
    "                    return value;\n" ++
    "    "

/-- The Go method `tooltipCallback`: it reads the chart type as requested. -/
def cjsChart.tooltipCallback (c : cjsChart) : String :=
  if c.inData.ChartType = "pie" then pieTooltip
  else if c.inData.ChartType = "line" ∨ c.inData.ChartType = "scatterline" then lineTooltip
  else if c.inData.ChartType = "scatter" then scatterTooltip
  else if c.inData.ChartType = "bar" then barTooltip
  else ""

/-- The Go method `data`: the result of `labelsAndDatasets` with the display fields of the
input and the tooltip text filled in. -/
def cjsChart.data (env : Collaborators) (order : MapOrder) (c : cjsChart) :
    Except Failure cjsData :=
  match c.labelsAndDatasets env order with
  | Except.error e => Except.error e
  | Except.ok d =>
    Except.ok { d with Title := c.inData.Title, ScaleType := c.inData.ScaleType,
                       XLabel := c.inData.XLabel, YLabel := c.inData.YLabel,
                       ZeroBased := c.inData.ZeroBased,
                       TooltipCallback := c.tooltipCallback }

/-! ## Examples of collaborators and tables -/

/-- Collaborators for evaluating examples: colours are numbered, labels are kept as they
are, an integer is rendered in decimal (as `%g` and `%v` do for small integers). -/
def plainEnv : Collaborators where
  colorFirstN := fun n => "first " ++ toString n
  colorRepeat := fun i n => "colour " ++ toString i ++ " x " ++ toString n
  colorIndex := fun i => "colour " ++ toString i
  preprocessLabel := fun s => s
  formatG := fun q =>
    if q.den = 1 then toString q.num else toString q.num ++ "/" ++ toString q.den
  formatV := fun q =>
    if q.den = 1 then toString q.num else toString q.num ++ "/" ++ toString q.den
  formatTime := fun t => toString t

/-- A chart of the given kind over the given rows, without title or axis labels. -/
def mkChart (kind : String) (fss : List (List ℚ)) (tss : List (List Time))
    (sss : List (List String)) (lo hi : List ℚ) : cjsChart :=
  { inData := { ChartType := kind, FSS := fss, TSS := tss, SSS := sss, MinFSS := lo,
                MaxFSS := hi, Title := "", ScaleType := "linear", XLabel := "", YLabel := "",
                ZeroBased := false } }

/-- A pie chart with a title, axis labels and a zero-based scale. -/
def titledPie : cjsChart :=
  { inData := { ChartType := "pie", FSS := [[10], [20]], TSS := [], SSS := [], MinFSS := [],
                MaxFSS := [], Title := "shares", ScaleType := "linear", XLabel := "x",
                YLabel := "y", ZeroBased := true } }

/-! ## Conditions on tables -/

/-- The row-count invariant: the text rows and the time rows, when there are any, are as
many as the numeric rows, and no text row and no time row is empty. -/
def inData.rowCountInvariant (i : inData) : Prop :=
  (i.SSS ≠ [] → i.SSS.length = i.FSS.length) ∧
  (i.TSS ≠ [] → i.TSS.length = i.FSS.length) ∧
  (∀ r ∈ i.SSS, r ≠ []) ∧ (∀ r ∈ i.TSS, r ≠ [])

/-- The column that supplies the bubble radius: column 1 next to a time axis, else column 2. -/
def inData.radiusColumn (i : inData) : Nat := if i.hasTimes then 1 else 2

/-- The bounds `MinFSS` and `MaxFSS` have an entry for the radius column of every row that
has such a column. -/
def inData.radiusBoundsPresent (i : inData) : Prop :=
  ∀ row ∈ i.FSS, i.radiusColumn + 1 ≤ row.length →
    i.radiusColumn < i.MinFSS.length ∧ i.radiusColumn < i.MaxFSS.length

/-- A well-formed non-empty table: at least one numeric row, every numeric row with the
same positive number of columns, the row-count invariant, and bounds for the radius
column. -/
def inData.wellFormed (i : inData) : Prop :=
  i.FSS ≠ [] ∧
  (∀ row ∈ i.FSS, row ≠ [] ∧ row.length = (i.FSS.headD []).length) ∧
  i.rowCountInvariant ∧ i.radiusBoundsPresent

/-! ## Closed forms used in the proofs

The points, categories and groups of a table, read off its rows without failure; the
lemmas below show that the loops of `labelsAndDatasets` compute them on the tables on which
they do not fail. -/

/-- The quoted timestamp token of row `i`. -/
def cjsChart.timeToken (env : Collaborators) (c : cjsChart) (i : Nat) : String :=
  quote ++ env.formatTime ((c.inData.TSS.getD i []).getD 0 0) ++ quote

/-- The first text value of row `i`, or the empty string when there is none. -/
def cjsChart.category (c : cjsChart) (i : Nat) : String :=
  (c.inData.SSS.getD i []).getD 0 ""

/-- The first text values of the rows of a table. -/
def inData.categories (i : inData) : List String := i.SSS.map (fun r => r.getD 0 "")

/-- The point of row `i` against the time axis: the quoted timestamp and the first
numeric column. -/
def cjsChart.timePoint (env : Collaborators) (c : cjsChart) (i : Nat) : cjsDataPoint :=
  { X := quote ++ env.formatTime ((c.inData.TSS.getD i []).getD 0 0) ++ quote,
    Y := env.formatG ((c.inData.FSS.getD i []).getD 0 0) }

/-- The rows of a table in the `denormalised-scatterline` mode, each as its category and
its point. -/
def cjsChart.timeRows (env : Collaborators) (c : cjsChart) : List (String × cjsDataPoint) :=
  (List.range c.inData.FSS.length).map (fun i => (c.category i, c.timePoint env i))

/-- The radius token of a row whose radius column is `col`, read off the row. -/
def cjsChart.radiusText (env : Collaborators) (c : cjsChart) (fs : List ℚ) (col : Nat) :
    String :=
  if fs.length ≥ col + 1 then
    env.formatV (scatterRadius (fs.getD col 0) (c.inData.MinFSS.getD col 0)
      (c.inData.MaxFSS.getD col 0))
  else "4"

/-- The bubble of row `i`, read off the row. -/
def cjsChart.bubblePoint (env : Collaborators) (c : cjsChart) (i : Nat) : cjsDataPoint :=
  if c.inData.hasTimes then
    { UsesR := true,
      X := quote ++ env.formatTime ((c.inData.TSS.getD i []).getD 0 0) ++ quote,
      Y := env.formatG ((c.inData.FSS.getD i []).getD 0 0),
      R := c.radiusText env (c.inData.FSS.getD i []) 1 }
  else
    { UsesR := true,
      X := env.formatG ((c.inData.FSS.getD i []).getD 0 0),
      Y := if (c.inData.FSS.getD i []).length ≥ 2
             then env.formatG ((c.inData.FSS.getD i []).getD 1 0) else "0",
      R := c.radiusText env (c.inData.FSS.getD i []) 2 }

/-- The rows of a table in the `scatter` mode, each as its category and its bubble. -/
def cjsChart.bubbleRows (env : Collaborators) (c : cjsChart) : List (String × cjsDataPoint) :=
  (List.range c.inData.FSS.length).map (fun i => (c.category i, c.bubblePoint env i))

/-- The distinct values of a list, each at its first occurrence. -/
def distinct : List String → List String
  | [] => []
  | s :: rest => s :: (distinct rest).filter (fun t => decide (t ≠ s))

/-- The dataset of category `k`, the `j`-th category: the points of the rows of that
category, in row order. -/
def groupDataset (env : Collaborators) (fill : Bool) (rows : List (String × cjsDataPoint))
    (j : Nat) (k : String) : cjsDataset :=
  { Fill := fill, Label := k,
    ComplexData := (rows.filter (fun r => decide (r.1 = k))).map Prod.snd,
    BorderColor := env.colorIndex j, BackgroundColor := env.colorIndex j }

/-- The datasets of the categories `keys`, numbered from `j`. -/
def groupsFrom (env : Collaborators) (fill : Bool) (rows : List (String × cjsDataPoint)) :
    Nat → List String → List (String × cjsDataset)
  | _, [] => []
  | j, k :: ks => (k, groupDataset env fill rows j k) :: groupsFrom env fill rows (j + 1) ks

/-- The map `css` of the `scatter` case for the categories `keys`, numbered from `j`. -/
def cssFrom : Nat → List String → GoMap String Nat
  | _, [] => []
  | j, k :: ks => (k, j) :: cssFrom (j + 1) ks

/-- The map `ils` of the `scatter` case for the categories `keys`, numbered from `j`. -/
def ilsFrom : Nat → List String → GoMap Nat String
  | _, [] => []
  | j, k :: ks => (j, k) :: ilsFrom (j + 1) ks

/-! ## Predicates on returned charts -/

/-- The label and the two colours of a dataset. -/
def cjsDataset.header (ds : cjsDataset) : String × String × String :=
  (ds.Label, ds.BackgroundColor, ds.BorderColor)

/-- The x token of the point is the quoted first timestamp of some time row of the
table. -/
def cjsChart.hasTimeX (env : Collaborators) (c : cjsChart) (p : cjsDataPoint) : Prop :=
  ∃ i, i < c.inData.TSS.length ∧
    p.X = quote ++ env.formatTime ((c.inData.TSS.getD i []).getD 0 0) ++ quote

/-- What `UsesTimeScale` of the chart `d` says when the chart type was resolved to `r`. -/
def cjsChart.timeScaleSpec (env : Collaborators) (c : cjsChart) (d : cjsData) (r : String) :
    Prop :=
  (d.UsesTimeScale = true ↔ ∃ ds ∈ d.Datasets, ∃ p ∈ ds.ComplexData, c.hasTimeX env p) ∧
  (r = "pie" ∨ r = "bar" ∨ r = "line" → d.UsesTimeScale = false) ∧
  (r = "scatterline" ∨ r = "denormalised-scatterline" ∨ r = "scatter" →
    (d.UsesTimeScale = true ↔
      c.inData.TSS ≠ [] ∧ ∃ ds ∈ d.Datasets, ds.ComplexData ≠ []))

/-! ## General lemmas -/

theorem index_ok {α : Type} (xs : List α) (i : Nat) (d : α) (h : i < xs.length) :
    index xs i = Except.ok (xs.getD i d) := by
  unfold index
  rw [List.getD_eq_getElem?_getD, List.getElem?_eq_getElem h]
  rfl

theorem index_error {α : Type} (xs : List α) (i : Nat) (h : xs.length ≤ i) :
    index xs i = Except.error Failure.indexOutOfRange := by
  unfold index
  rw [List.getElem?_eq_none h]

theorem index_zero_ok {α : Type} (xs : List α) (d : α) (h : xs ≠ []) :
    index xs 0 = Except.ok (xs.getD 0 d) :=
  index_ok xs 0 d (List.length_pos.mpr h)

theorem mapE_ok_of_forall {α β : Type} (f : α → Except Failure β) (g : α → β) (l : List α)
    (h : ∀ a ∈ l, f a = Except.ok (g a)) : mapE f l = Except.ok (l.map g) := by
  induction l with
  | nil => rfl
  | cons a as ih =>
    have h1 : f a = Except.ok (g a) := h a (List.mem_cons_self a as)
    have h2 : mapE f as = Except.ok (as.map g) :=
      ih (fun b hb => h b (List.mem_cons_of_mem a hb))
    simp [mapE, h1, h2]

theorem marshalSimpleData_ok (env : Collaborators) (c : cjsChart) (col : Nat)
    (h : ∀ row ∈ c.inData.FSS, col < row.length) :
    c.marshalSimpleData env col
      = Except.ok (c.inData.FSS.map (fun row => env.formatG (row.getD col 0))) := by
  unfold cjsChart.marshalSimpleData
  apply mapE_ok_of_forall
  intro row hrow
  rw [index_ok row col 0 (h row hrow)]
  rfl

theorem hasStrings_eq_false (i : inData) : i.hasStrings = false ↔ i.SSS = [] := by
  unfold inData.hasStrings
  cases i.SSS <;> simp

theorem hasTimes_eq_false (i : inData) : i.hasTimes = false ↔ i.TSS = [] := by
  unfold inData.hasTimes
  cases i.TSS <;> simp

theorem hasStrings_eq_true (i : inData) : i.hasStrings = true ↔ i.SSS ≠ [] := by
  unfold inData.hasStrings
  cases i.SSS <;> simp

theorem hasTimes_eq_true (i : inData) : i.hasTimes = true ↔ i.TSS ≠ [] := by
  unfold inData.hasTimes
  cases i.TSS <;> simp

/-- The labels that `marshalLabels` computes when it does not fail. -/
theorem labelList_ok (env : Collaborators) (c : cjsChart)
    (htext : ∀ r ∈ c.inData.SSS, r ≠ [])
    (htime : c.inData.SSS = [] → ∀ r ∈ c.inData.TSS, r ≠ []) :
    c.labelList env = Except.ok
      (if c.inData.SSS = [] then
        if c.inData.TSS = [] then
          (List.range c.inData.FSS.length).map (fun i => "slice " ++ toString i)
        else c.inData.TSS.map (fun ts => env.formatTime (ts.getD 0 0))
      else c.inData.SSS.map (fun l => env.preprocessLabel (l.getD 0 ""))) := by
  unfold cjsChart.labelList
  by_cases hs : c.inData.SSS = []
  · by_cases ht : c.inData.TSS = []
    · simp [(hasStrings_eq_false _).mpr hs, (hasTimes_eq_false _).mpr ht, hs, ht]
    · simp only [(hasStrings_eq_false _).mpr hs, (hasTimes_eq_true _).mpr ht, hs, ht]
      simp only [Bool.not_false, Bool.and_self, if_true, if_false]
      apply mapE_ok_of_forall
      intro ts hts
      rw [index_zero_ok ts 0 (htime hs ts hts)]
      rfl
  · simp only [(hasStrings_eq_true _).mpr hs, hs]
    simp only [Bool.not_true, Bool.false_and, if_false]
    simp only [Bool.false_eq_true, if_false]
    apply mapE_ok_of_forall
    intro l hl
    rw [index_zero_ok l "" (htext l hl)]
    rfl

theorem resolve_of_ne_line (i : inData) (h : i.ChartType ≠ "line") :
    i.resolveChartType = i.ChartType := by
  unfold inData.resolveChartType
  simp [h]

theorem resolve_line_text (i : inData) (hkind : i.ChartType = "line") (hs : i.SSS ≠ [])
    (ht : i.TSS = []) : i.resolveChartType = "line" := by
  unfold inData.resolveChartType
  simp [hkind, (hasStrings_eq_true i).mpr hs, (hasTimes_eq_false i).mpr ht]

theorem marshalLabels_ok (env : Collaborators) (c : cjsChart)
    (htext : ∀ r ∈ c.inData.SSS, r ≠ [])
    (htime : c.inData.SSS = [] → ∀ r ∈ c.inData.TSS, r ≠ []) :
    ∃ labels, c.marshalLabels env = Except.ok labels := by
  unfold cjsChart.marshalLabels
  rw [labelList_ok env c htext htime]
  exact ⟨_, rfl⟩

theorem singleSeries_ok (env : Collaborators) (c : cjsChart) (kind labels : String)
    (hl : c.marshalLabels env = Except.ok labels)
    (hrows : ∀ row ∈ c.inData.FSS, 1 ≤ row.length) :
    c.singleSeries env kind = Except.ok
      { ChartType := kind, ActualChartType := kind, Labels := labels,
        Datasets := [{ Fill := true,
                       SimpleData := c.inData.FSS.map (fun row => env.formatG (row.getD 0 0)),
                       BackgroundColor := env.colorFirstN c.inData.FSS.length }] } := by
  unfold cjsChart.singleSeries
  rw [hl, marshalSimpleData_ok env c 0 (fun row h => hrows row h)]
  rfl

theorem dispatch_pie (env : Collaborators) (order : MapOrder) (c : cjsChart) (labels : String)
    (hkind : c.inData.ChartType = "pie")
    (hl : c.marshalLabels env = Except.ok labels)
    (hrows : ∀ row ∈ c.inData.FSS, 1 ≤ row.length) :
    c.dispatch env order = Except.ok
      { ChartType := "pie", ActualChartType := "pie", Labels := labels,
        Datasets := [{ Fill := true,
                       SimpleData := c.inData.FSS.map (fun row => env.formatG (row.getD 0 0)),
                       BackgroundColor := env.colorFirstN c.inData.FSS.length }] } := by
  unfold cjsChart.dispatch
  simp only [hkind, if_true]
  exact singleSeries_ok env c "pie" labels hl hrows

theorem multiSeries_ok (env : Collaborators) (c : cjsChart) (k : Nat)
    (mk : Nat → List String → cjsDataset)
    (hk : ∀ row ∈ c.inData.FSS, row.length = k) :
    mapE (fun i => (c.marshalSimpleData env i).map (mk i)) (List.range k)
      = Except.ok ((List.range k).map (fun i =>
          mk i (c.inData.FSS.map (fun row => env.formatG (row.getD i 0))))) := by
  apply mapE_ok_of_forall
  intro i hi
  rw [marshalSimpleData_ok env c i (fun row h => by rw [hk row h]; exact List.mem_range.mp hi)]
  rfl

theorem head_length (c : cjsChart) (k : Nat) (hne : c.inData.FSS ≠ [])
    (hk : ∀ row ∈ c.inData.FSS, row.length = k) :
    index c.inData.FSS 0 = Except.ok (c.inData.FSS.getD 0 []) ∧
      (c.inData.FSS.getD 0 []).length = k := by
  refine ⟨index_zero_ok _ [] hne, ?_⟩
  cases hF : c.inData.FSS with
  | nil => exact absurd hF hne
  | cons r rs =>
    rw [hF] at hk
    simpa using hk r (List.mem_cons_self r rs)

theorem dispatch_bar_single (env : Collaborators) (order : MapOrder) (c : cjsChart)
    (labels : String)
    (hne : c.inData.FSS ≠ [])
    (hk : ∀ row ∈ c.inData.FSS, row.length = 1)
    (hkind : c.inData.ChartType = "bar")
    (hl : c.marshalLabels env = Except.ok labels) :
    c.dispatch env order = Except.ok
      { ChartType := "bar", ActualChartType := "bar", Labels := labels,
        Datasets := [{ Fill := true,
                       SimpleData := c.inData.FSS.map (fun row => env.formatG (row.getD 0 0)),
                       BackgroundColor := env.colorFirstN c.inData.FSS.length }] } := by
  obtain ⟨h0, hlen⟩ := head_length c 1 hne hk
  unfold cjsChart.dispatch
  simp only [hkind]
  simp only [show ("bar" = "pie") = False by decide, if_false, if_true]
  show (index c.inData.FSS 0 >>= _) = _
  rw [h0]
  simp only [Except.bind, bind, hlen, if_true]
  exact singleSeries_ok env _ "bar" labels hl (fun row h => by rw [hk row h])

theorem dispatch_bar_multi (env : Collaborators) (order : MapOrder) (c : cjsChart) (k : Nat)
    (labels : String)
    (hne : c.inData.FSS ≠ [])
    (hk : ∀ row ∈ c.inData.FSS, row.length = k) (h1 : k ≠ 1)
    (hkind : c.inData.ChartType = "bar")
    (hl : c.marshalLabels env = Except.ok labels) :
    c.dispatch env order = Except.ok
      { ChartType := "bar", ActualChartType := "bar", Labels := labels,
        Datasets := (List.range k).map (fun i =>
          { Fill := true, Label := "category " ++ toString i,
            SimpleData := c.inData.FSS.map (fun row => env.formatG (row.getD i 0)),
            BackgroundColor := env.colorRepeat i c.inData.FSS.length }) } := by
  obtain ⟨h0, hlen⟩ := head_length c k hne hk
  unfold cjsChart.dispatch
  simp only [hkind]
  simp only [show ("bar" = "pie") = False by decide, if_false, if_true]
  show (index c.inData.FSS 0 >>= _) = _
  rw [h0]
  simp only [Except.bind, bind, hlen, h1, if_false]
  rw [multiSeries_ok env _ k _ hk]
  simp only []
  show (cjsChart.marshalLabels env c >>= _) = _
  rw [hl]
  rfl

theorem dispatch_line (env : Collaborators) (order : MapOrder) (c : cjsChart) (k : Nat)
    (labels : String)
    (hne : c.inData.FSS ≠ [])
    (hk : ∀ row ∈ c.inData.FSS, row.length = k)
    (hkind : c.inData.ChartType = "line")
    (hl : c.marshalLabels env = Except.ok labels) :
    c.dispatch env order = Except.ok
      { ChartType := "line", ActualChartType := "line", Labels := labels,
        Datasets := (List.range k).map (fun i =>
          { Fill := false, Label := "category " ++ toString i,
            SimpleData := c.inData.FSS.map (fun row => env.formatG (row.getD i 0)),
            BorderColor := env.colorIndex i, BackgroundColor := env.colorIndex i }) } := by
  obtain ⟨h0, hlen⟩ := head_length c k hne hk
  unfold cjsChart.dispatch
  simp only [hkind]
  simp only [show ("line" = "pie") = False by decide, show ("line" = "bar") = False by decide,
    if_false, if_true]
  show (index c.inData.FSS 0 >>= _) = _
  rw [h0]
  simp only [Except.bind, bind, hlen]
  rw [multiSeries_ok env _ k _ hk]
  simp only []
  show (cjsChart.marshalLabels env c >>= _) = _
  rw [hl]
  rfl

theorem range_map_getD {α β : Type} (l : List α) (d : α) (f : α → β) :
    (List.range l.length).map (fun i => f (l.getD i d)) = l.map f := by
  apply List.ext_getElem
  · simp
  · intro i h1 h2
    have hi : i < l.length := by simpa using h2
    simp [List.getElem?_eq_getElem hi]

/-- The point of row `i` in the series of column `n + 1` against column 0. -/
theorem scatterlinePoint_plain (env : Collaborators) (c : cjsChart) (k n i : Nat)
    (ht : c.inData.TSS = []) (hne : c.inData.FSS ≠ [])
    (hk : ∀ row ∈ c.inData.FSS, row.length = k)
    (hn : n + 1 < k) (hi : i < c.inData.FSS.length) :
    c.scatterlinePoint env n i = Except.ok (some
      { X := env.formatG ((c.inData.FSS.getD i []).getD 0 0),
        Y := env.formatG ((c.inData.FSS.getD i []).getD (n + 1) 0) }) := by
  obtain ⟨h0, hlen⟩ := head_length c k hne hk
  have hrow : (c.inData.FSS.getD i []).length = k := by
    apply hk
    rw [List.getD_eq_getElem _ _ hi]
    exact List.getElem_mem hi
  unfold cjsChart.scatterlinePoint
  simp only [(hasTimes_eq_false _).mpr ht, Bool.false_eq_true, if_false]
  show (index c.inData.FSS 0 >>= _) = _
  rw [h0]
  simp only [Except.bind, bind, hlen]
  have hne' : ¬ ((n : Int) = (k : Int) - 1) := by omega
  simp only [hne', if_false]
  rw [index_ok _ i [] hi]
  simp only []
  rw [index_ok _ 0 0 (by omega), index_ok _ (n + 1) 0 (by omega)]
  rfl

theorem scatterlinePoint_break (env : Collaborators) (c : cjsChart) (k n i : Nat)
    (ht : c.inData.TSS = []) (hne : c.inData.FSS ≠ [])
    (hk : ∀ row ∈ c.inData.FSS, row.length = k)
    (hn : n + 1 = k) :
    c.scatterlinePoint env n i = Except.ok none := by
  obtain ⟨h0, hlen⟩ := head_length c k hne hk
  unfold cjsChart.scatterlinePoint
  simp only [(hasTimes_eq_false _).mpr ht, Bool.false_eq_true, if_false]
  show (index c.inData.FSS 0 >>= _) = _
  rw [h0]
  simp only [Except.bind, bind, hlen]
  have he : (n : Int) = (k : Int) - 1 := by omega
  simp only [he, if_true]
  rfl

theorem scatterlineInner_plain (env : Collaborators) (c : cjsChart) (k n : Nat)
    (ht : c.inData.TSS = []) (hne : c.inData.FSS ≠ [])
    (hk : ∀ row ∈ c.inData.FSS, row.length = k) (hn : n + 1 < k)
    (rows : List Nat) (hrows : ∀ i ∈ rows, i < c.inData.FSS.length)
    (acc : List cjsDataPoint) (u : Bool) :
    c.scatterlineInner env n rows acc u = Except.ok
      (some (acc ++ rows.map (fun i =>
        ({ X := env.formatG ((c.inData.FSS.getD i []).getD 0 0),
           Y := env.formatG ((c.inData.FSS.getD i []).getD (n + 1) 0) } : cjsDataPoint))), u) := by
  induction rows generalizing acc u with
  | nil => simp [cjsChart.scatterlineInner]
  | cons i is ih =>
    have hi := hrows i (List.mem_cons_self i is)
    unfold cjsChart.scatterlineInner
    rw [scatterlinePoint_plain env c k n i ht hne hk hn hi]
    simp only []
    rw [ih (fun j hj => hrows j (List.mem_cons_of_mem i hj))]
    simp [(hasTimes_eq_false _).mpr ht]

theorem scatterlineInner_break (env : Collaborators) (c : cjsChart) (k n : Nat)
    (ht : c.inData.TSS = []) (hne : c.inData.FSS ≠ [])
    (hk : ∀ row ∈ c.inData.FSS, row.length = k) (hn : n + 1 = k)
    (rows : List Nat) (hrows : rows ≠ []) (acc : List cjsDataPoint) (u : Bool) :
    c.scatterlineInner env n rows acc u = Except.ok (none, u) := by
  cases rows with
  | nil => exact absurd rfl hrows
  | cons i is =>
    unfold cjsChart.scatterlineInner
    rw [scatterlinePoint_break env c k n i ht hne hk hn]
    simp [(hasTimes_eq_false _).mpr ht]

theorem scatterlineOuter_plain (env : Collaborators) (c : cjsChart) (k : Nat)
    (ht : c.inData.TSS = []) (hne : c.inData.FSS ≠ [])
    (hk : ∀ row ∈ c.inData.FSS, row.length = k)
    (ns rest : List Nat) (hns : ∀ n ∈ ns, n + 1 < k) (hk1 : 1 ≤ k)
    (dss : List cjsDataset) (u : Bool) :
    c.scatterlineOuter env (List.range c.inData.FSS.length) (ns ++ (k - 1) :: rest) dss u
      = Except.ok (dss ++ ns.map (fun n =>
          ({ Fill := false, Label := "category " ++ toString n,
             ComplexData := c.inData.FSS.map (fun row =>
               ({ X := env.formatG (row.getD 0 0),
                  Y := env.formatG (row.getD (n + 1) 0) } : cjsDataPoint)),
             BorderColor := env.colorIndex n,
             BackgroundColor := env.colorIndex n } : cjsDataset)), u) := by
  induction ns generalizing dss u with
  | nil =>
    simp only [List.nil_append, List.map_nil, List.append_nil]
    unfold cjsChart.scatterlineOuter
    rw [scatterlineInner_break env c k (k - 1) ht hne hk (by omega) _
      (by simpa using hne) [] u]
  | cons n ns ih =>
    have hn := hns n (List.mem_cons_self n ns)
    simp only [List.cons_append]
    unfold cjsChart.scatterlineOuter
    rw [scatterlineInner_plain env c k n ht hne hk hn _ (fun i hi => List.mem_range.mp hi) [] u]
    simp only [List.nil_append]
    rw [ih (fun m hm => hns m (List.mem_cons_of_mem n hm))]
    rw [range_map_getD c.inData.FSS [] (fun row =>
      ({ X := env.formatG (row.getD 0 0), Y := env.formatG (row.getD (n + 1) 0) } : cjsDataPoint))]
    simp

theorem resolve_line_plain (i : inData) (hkind : i.ChartType = "line") (hs : i.SSS = []) :
    i.resolveChartType = "scatterline" := by
  unfold inData.resolveChartType
  simp [hkind, (hasStrings_eq_false i).mpr hs]

theorem dispatch_scatterline_plain (env : Collaborators) (order : MapOrder) (c : cjsChart)
    (k : Nat) (hkind : c.inData.ChartType = "scatterline")
    (ht : c.inData.TSS = []) (hne : c.inData.FSS ≠ [])
    (hk : ∀ row ∈ c.inData.FSS, row.length = k) (hk1 : 1 ≤ k) :
    c.dispatch env order = Except.ok
      { ChartType := "line", ActualChartType := "scatterline",
        Datasets := (List.range (k - 1)).map (fun n =>
          ({ Fill := false, Label := "category " ++ toString n,
             ComplexData := c.inData.FSS.map (fun row =>
               ({ X := env.formatG (row.getD 0 0),
                  Y := env.formatG (row.getD (n + 1) 0) } : cjsDataPoint)),
             BorderColor := env.colorIndex n,
             BackgroundColor := env.colorIndex n } : cjsDataset)),
        UsesTimeScale := false } := by
  obtain ⟨h0, hlen⟩ := head_length c k hne hk
  have hrange : List.range k = List.range (k - 1) ++ (k - 1) :: [] := by
    have : k = (k - 1) + 1 := by omega
    conv_lhs => rw [this, List.range_succ]
  unfold cjsChart.dispatch
  simp only [hkind]
  simp only [show ("scatterline" = "pie") = False by decide,
    show ("scatterline" = "bar") = False by decide,
    show ("scatterline" = "line") = False by decide, if_false, if_true]
  show (index c.inData.FSS 0 >>= _) = _
  rw [h0]
  simp only [Except.bind, bind, hlen]
  rw [hrange, scatterlineOuter_plain env c k ht hne hk _ _
    (fun n hn => by have := List.mem_range.mp hn; omega) hk1]
  rfl

theorem getD_mem_of_lt {α : Type} (l : List α) (d : α) (i : Nat) (hi : i < l.length) :
    l.getD i d ∈ l := by
  rw [List.getD_eq_getElem _ _ hi]
  exact List.getElem_mem hi

theorem scatterlinePoint_time (env : Collaborators) (c : cjsChart) (k n i : Nat)
    (ht : c.inData.TSS ≠ []) (htne : ∀ r ∈ c.inData.TSS, r ≠ [])
    (hk : ∀ row ∈ c.inData.FSS, row.length = k)
    (hn : n < k) (hi : i < c.inData.FSS.length) (hi' : i < c.inData.TSS.length) :
    c.scatterlinePoint env n i = Except.ok (some
      { X := c.timeToken env i,
        Y := env.formatG ((c.inData.FSS.getD i []).getD n 0) }) := by
  have hrow : (c.inData.FSS.getD i []).length = k := hk _ (getD_mem_of_lt _ _ _ hi)
  have htrow : c.inData.TSS.getD i [] ≠ [] := htne _ (getD_mem_of_lt _ _ _ hi')
  unfold cjsChart.scatterlinePoint
  simp only [(hasTimes_eq_true _).mpr ht, if_true]
  show (index c.inData.TSS i >>= _) = _
  rw [index_ok _ i [] hi']
  simp only [Except.bind, bind]
  rw [index_zero_ok _ 0 htrow]
  simp only []
  rw [index_ok _ i [] hi]
  simp only []
  rw [index_ok _ n 0 (by omega)]
  rfl

theorem scatterlineInner_time (env : Collaborators) (c : cjsChart) (k n : Nat)
    (ht : c.inData.TSS ≠ []) (htne : ∀ r ∈ c.inData.TSS, r ≠ [])
    (hk : ∀ row ∈ c.inData.FSS, row.length = k) (hn : n < k)
    (rows : List Nat) (hrows : ∀ i ∈ rows, i < c.inData.FSS.length ∧ i < c.inData.TSS.length)
    (acc : List cjsDataPoint) (u : Bool) :
    c.scatterlineInner env n rows acc u = Except.ok
      (some (acc ++ rows.map (fun i =>
        ({ X := c.timeToken env i,
           Y := env.formatG ((c.inData.FSS.getD i []).getD n 0) } : cjsDataPoint))),
        u || !rows.isEmpty) := by
  induction rows generalizing acc u with
  | nil => simp [cjsChart.scatterlineInner]
  | cons i is ih =>
    have hi := hrows i (List.mem_cons_self i is)
    unfold cjsChart.scatterlineInner
    rw [scatterlinePoint_time env c k n i ht htne hk hn hi.1 hi.2]
    simp only []
    rw [ih (fun j hj => hrows j (List.mem_cons_of_mem i hj))]
    simp [(hasTimes_eq_true _).mpr ht]

theorem scatterlineOuter_time (env : Collaborators) (c : cjsChart) (k : Nat)
    (ht : c.inData.TSS ≠ []) (htne : ∀ r ∈ c.inData.TSS, r ≠ [])
    (hlen : c.inData.TSS.length = c.inData.FSS.length)
    (hk : ∀ row ∈ c.inData.FSS, row.length = k)
    (ns : List Nat) (hns : ∀ n ∈ ns, n < k)
    (dss : List cjsDataset) (u : Bool) :
    c.scatterlineOuter env (List.range c.inData.FSS.length) ns dss u
      = Except.ok (dss ++ ns.map (fun n =>
          ({ Fill := false, Label := "category " ++ toString n,
             ComplexData := (List.range c.inData.FSS.length).map (fun i =>
               ({ X := c.timeToken env i,
                  Y := env.formatG ((c.inData.FSS.getD i []).getD n 0) } : cjsDataPoint)),
             BorderColor := env.colorIndex n,
             BackgroundColor := env.colorIndex n } : cjsDataset)),
          u || !ns.isEmpty) := by
  have hF : c.inData.FSS ≠ [] := by
    intro h
    rw [h] at hlen
    exact ht (List.length_eq_zero.mp hlen)
  induction ns generalizing dss u with
  | nil => simp [cjsChart.scatterlineOuter]
  | cons n ns ih =>
    have hn := hns n (List.mem_cons_self n ns)
    unfold cjsChart.scatterlineOuter
    rw [scatterlineInner_time env c k n ht htne hk hn _
      (fun i hi => ⟨List.mem_range.mp hi, by rw [hlen]; exact List.mem_range.mp hi⟩) [] u]
    simp only [List.nil_append]
    rw [ih (fun m hm => hns m (List.mem_cons_of_mem n hm))]
    have : (List.range c.inData.FSS.length).isEmpty = false := by
      cases hc : c.inData.FSS with
      | nil => exact absurd hc hF
      | cons r rs => simp [List.range_succ]
    simp [this]

theorem dispatch_scatterline_time (env : Collaborators) (order : MapOrder) (c : cjsChart)
    (k : Nat) (hkind : c.inData.ChartType = "scatterline")
    (ht : c.inData.TSS ≠ []) (htne : ∀ r ∈ c.inData.TSS, r ≠ [])
    (hlen : c.inData.TSS.length = c.inData.FSS.length)
    (hk : ∀ row ∈ c.inData.FSS, row.length = k) :
    c.dispatch env order = Except.ok
      { ChartType := "line", ActualChartType := "scatterline",
        Datasets := (List.range k).map (fun n =>
          ({ Fill := false, Label := "category " ++ toString n,
             ComplexData := (List.range c.inData.FSS.length).map (fun i =>
               ({ X := c.timeToken env i,
                  Y := env.formatG ((c.inData.FSS.getD i []).getD n 0) } : cjsDataPoint)),
             BorderColor := env.colorIndex n,
             BackgroundColor := env.colorIndex n } : cjsDataset)),
        UsesTimeScale := !(List.range k).isEmpty } := by
  have hF : c.inData.FSS ≠ [] := by
    intro h
    rw [h] at hlen
    exact ht (List.length_eq_zero.mp hlen)
  obtain ⟨h0, hlen0⟩ := head_length c k hF hk
  unfold cjsChart.dispatch
  simp only [hkind]
  simp only [show ("scatterline" = "pie") = False by decide,
    show ("scatterline" = "bar") = False by decide,
    show ("scatterline" = "line") = False by decide, if_false, if_true]
  show (index c.inData.FSS 0 >>= _) = _
  rw [h0]
  simp only [Except.bind, bind, hlen0]
  rw [scatterlineOuter_time env c k ht htne hlen hk _ (fun n hn => List.mem_range.mp hn)]
  rw [Bool.false_or, List.nil_append]
  rfl

theorem mem_distinct (l : List String) (s : String) : s ∈ distinct l ↔ s ∈ l := by
  induction l with
  | nil => simp [distinct]
  | cons a as ih =>
    simp only [distinct, List.mem_cons, List.mem_filter, ih]
    by_cases h : s = a <;> simp [h]

theorem nodup_distinct (l : List String) : (distinct l).Nodup := by
  induction l with
  | nil => simp [distinct]
  | cons a as ih =>
    simp only [distinct, List.nodup_cons, List.mem_filter]
    exact ⟨by simp, ih.filter _⟩

theorem distinct_cons (s : String) (rest : List String) :
    distinct (s :: rest) = s :: (distinct rest).filter (fun t => decide (t ≠ s)) := rfl

theorem distinct_snoc (l : List String) (s : String) :
    distinct (l ++ [s]) = if s ∈ l then distinct l else distinct l ++ [s] := by
  induction l with
  | nil => simp [distinct]
  | cons a as ih =>
    rw [List.cons_append, distinct_cons, distinct_cons, ih]
    by_cases h1 : s = a
    · subst h1
      by_cases h2 : s ∈ as
      · simp [h2]
      · simp [h2, List.filter_append]
    · by_cases h2 : s ∈ as
      · simp [h2]
      · have : ¬ (s = a ∨ s ∈ as) := by tauto
        simp [h1, h2, List.filter_append, this]

theorem groupDataset_snoc_ne (env : Collaborators) (fill : Bool)
    (rows : List (String × cjsDataPoint)) (j : Nat) (k s : String) (d : cjsDataPoint)
    (h : s ≠ k) :
    groupDataset env fill (rows ++ [(s, d)]) j k = groupDataset env fill rows j k := by
  simp [groupDataset, List.filter_append, List.filter_cons, h]

theorem groupDataset_snoc_eq (env : Collaborators) (fill : Bool)
    (rows : List (String × cjsDataPoint)) (j : Nat) (s : String) (d : cjsDataPoint) :
    groupDataset env fill (rows ++ [(s, d)]) j s =
      { groupDataset env fill rows j s with
        ComplexData := (groupDataset env fill rows j s).ComplexData ++ [d] } := by
  simp [groupDataset, List.filter_append, List.filter_cons]

theorem groupsFrom_snoc_not_mem (env : Collaborators) (fill : Bool)
    (rows : List (String × cjsDataPoint)) (s : String) (d : cjsDataPoint)
    (keys : List String) (j : Nat) (h : s ∉ keys) :
    groupsFrom env fill (rows ++ [(s, d)]) j keys = groupsFrom env fill rows j keys := by
  induction keys generalizing j with
  | nil => rfl
  | cons k ks ih =>
    have hk : s ≠ k := fun e => h (by simp [e])
    have hks : s ∉ ks := fun e => h (by simp [e])
    simp [groupsFrom, groupDataset_snoc_ne env fill rows j k s d hk, ih (j + 1) hks]

theorem groupsFrom_length (env : Collaborators) (fill : Bool)
    (rows : List (String × cjsDataPoint)) (keys : List String) (j : Nat) :
    (groupsFrom env fill rows j keys).length = keys.length := by
  induction keys generalizing j with
  | nil => rfl
  | cons k ks ih => simp [groupsFrom, ih]

theorem groupsFrom_append (env : Collaborators) (fill : Bool)
    (rows : List (String × cjsDataPoint)) (ks ks' : List String) (j : Nat) :
    groupsFrom env fill rows j (ks ++ ks') =
      groupsFrom env fill rows j ks ++ groupsFrom env fill rows (j + ks.length) ks' := by
  induction ks generalizing j with
  | nil => simp [groupsFrom]
  | cons k ks ih =>
    rw [List.cons_append]
    simp only [groupsFrom, ih, List.length_cons, List.cons_append]
    rw [show j + 1 + ks.length = j + (ks.length + 1) by omega]

theorem get?_groupsFrom_not_mem (env : Collaborators) (fill : Bool)
    (rows : List (String × cjsDataPoint)) (s : String) (keys : List String) (j : Nat)
    (h : s ∉ keys) :
    GoMap.get? (groupsFrom env fill rows j keys) s = none := by
  induction keys generalizing j with
  | nil => rfl
  | cons k ks ih =>
    have hk : k ≠ s := fun e => h (by simp [e])
    have hks : s ∉ ks := fun e => h (by simp [e])
    simp [groupsFrom, GoMap.get?, hk, ih (j + 1) hks]

theorem set_groupsFrom_not_mem (env : Collaborators) (fill : Bool)
    (rows : List (String × cjsDataPoint)) (s : String) (v : cjsDataset)
    (keys : List String) (j : Nat) (h : s ∉ keys) :
    GoMap.set (groupsFrom env fill rows j keys) s v
      = groupsFrom env fill rows j keys ++ [(s, v)] := by
  induction keys generalizing j with
  | nil => rfl
  | cons k ks ih =>
    have hk : k ≠ s := fun e => h (by simp [e])
    have hks : s ∉ ks := fun e => h (by simp [e])
    simp [groupsFrom, GoMap.set, hk, ih (j + 1) hks]

theorem update_groupsFrom_mem (env : Collaborators) (fill : Bool)
    (rows : List (String × cjsDataPoint)) (s : String) (d : cjsDataPoint)
    (keys : List String) (j : Nat) (h : s ∈ keys) (hn : keys.Nodup) :
    ∃ m : cjsDataset,
      GoMap.get? (groupsFrom env fill rows j keys) s = some m ∧
      GoMap.set (groupsFrom env fill rows j keys) s
          { m with ComplexData := m.ComplexData ++ [d] }
        = groupsFrom env fill (rows ++ [(s, d)]) j keys := by
  induction keys generalizing j with
  | nil => simp at h
  | cons k ks ih =>
    have hnk : k ∉ ks := (List.nodup_cons.mp hn).1
    by_cases hk : k = s
    · subst hk
      refine ⟨groupDataset env fill rows j k, by simp [groupsFrom, GoMap.get?], ?_⟩
      simp [groupsFrom, GoMap.set, groupDataset_snoc_eq,
        groupsFrom_snoc_not_mem env fill rows k d ks (j + 1) hnk]
    · have hs : s ∈ ks := by
        rcases List.mem_cons.mp h with e | e
        · exact absurd e.symm hk
        · exact e
      obtain ⟨m, h1, h2⟩ := ih (j + 1) hs (List.nodup_cons.mp hn).2
      refine ⟨m, by simp [groupsFrom, GoMap.get?, hk, h1], ?_⟩
      simp [groupsFrom, GoMap.set, hk, h2,
        groupDataset_snoc_ne env fill rows j k s d (Ne.symm hk)]

/-- One more row of category `s` with point `d` takes the grouping of the rows seen so far
to the grouping of the rows extended by it. -/
theorem denormStore_groups (env : Collaborators) (rows : List (String × cjsDataPoint))
    (s : String) (d : cjsDataPoint) :
    denormStore env (groupsFrom env false rows 0 (distinct (rows.map Prod.fst))) s d
      = groupsFrom env false (rows ++ [(s, d)]) 0
          (distinct ((rows ++ [(s, d)]).map Prod.fst)) := by
  have hsnoc : (rows ++ [(s, d)]).map Prod.fst = rows.map Prod.fst ++ [s] := by simp
  rw [hsnoc, distinct_snoc]
  by_cases hmem : s ∈ rows.map Prod.fst
  · rw [if_pos hmem]
    obtain ⟨m, h1, h2⟩ := update_groupsFrom_mem env false rows s d _ 0
      ((mem_distinct _ _).mpr hmem) (nodup_distinct _)
    unfold denormStore
    rw [h1]
    exact h2
  · rw [if_neg hmem]
    have hnot : s ∉ distinct (rows.map Prod.fst) := fun h => hmem ((mem_distinct _ _).mp h)
    unfold denormStore
    rw [get?_groupsFrom_not_mem env false rows s _ 0 hnot]
    simp only []
    rw [set_groupsFrom_not_mem env false rows s _ _ 0 hnot, groupsFrom_append,
      groupsFrom_snoc_not_mem env false rows s d _ 0 hnot, groupsFrom_length]
    simp [groupsFrom, groupDataset, List.filter_append, List.filter_cons]
    intro a b hab hne
    exact absurd hab (fun e => hmem (by
      rw [List.mem_map]; exact ⟨(a, b), e, hne⟩))

theorem firstText_ok (c : cjsChart) (i : Nat) (hi : i < c.inData.SSS.length)
    (hne : ∀ r ∈ c.inData.SSS, r ≠ []) :
    c.firstText i = Except.ok (c.category i) := by
  unfold cjsChart.firstText cjsChart.category
  show (index c.inData.SSS i >>= _) = _
  rw [index_ok _ i [] hi]
  simp only [Except.bind, bind]
  exact index_zero_ok _ "" (hne _ (getD_mem_of_lt _ _ _ hi))

theorem denormPoint_time (env : Collaborators) (c : cjsChart) (i : Nat)
    (ht : c.inData.TSS ≠ []) (htne : ∀ r ∈ c.inData.TSS, r ≠ [])
    (hfne : ∀ r ∈ c.inData.FSS, r ≠ [])
    (hi : i < c.inData.FSS.length) (hi' : i < c.inData.TSS.length) :
    c.denormPoint env i = Except.ok (c.timePoint env i) := by
  unfold cjsChart.denormPoint cjsChart.timePoint
  simp only [(hasTimes_eq_true _).mpr ht, if_true]
  show (index c.inData.TSS i >>= _) = _
  rw [index_ok _ i [] hi']
  simp only [Except.bind, bind]
  rw [index_zero_ok _ 0 (htne _ (getD_mem_of_lt _ _ _ hi'))]
  simp only []
  rw [index_ok _ i [] hi]
  simp only []
  rw [index_zero_ok _ 0 (hfne _ (getD_mem_of_lt _ _ _ hi))]
  rfl

theorem denormLoop_groups (env : Collaborators) (c : cjsChart)
    (pt : Nat → cjsDataPoint)
    (is : List Nat)
    (hpt : ∀ i ∈ is, c.denormPoint env i = Except.ok (pt i))
    (hcat : ∀ i ∈ is, c.firstText i = Except.ok (c.category i))
    (pre : List (String × cjsDataPoint)) (u : Bool) :
    c.denormLoop env is (groupsFrom env false pre 0 (distinct (pre.map Prod.fst))) u
      = Except.ok
          (groupsFrom env false (pre ++ is.map (fun i => (c.category i, pt i))) 0
            (distinct ((pre ++ is.map (fun i => (c.category i, pt i))).map Prod.fst)),
           u || (c.inData.hasTimes && !is.isEmpty)) := by
  induction is generalizing pre u with
  | nil => simp [cjsChart.denormLoop]
  | cons i is ih =>
    unfold cjsChart.denormLoop
    rw [hpt i (List.mem_cons_self i is), hcat i (List.mem_cons_self i is)]
    simp only []
    rw [denormStore_groups, ih (fun j hj => hpt j (List.mem_cons_of_mem i hj))
      (fun j hj => hcat j (List.mem_cons_of_mem i hj))]
    simp only [List.map_cons, List.append_assoc, List.singleton_append, List.isEmpty_cons,
      Bool.not_false, Bool.and_true, Bool.or_assoc]
    cases c.inData.hasTimes <;> cases is.isEmpty <;> simp

theorem dispatch_denorm (env : Collaborators) (order : MapOrder) (c : cjsChart)
    (hkind : c.inData.ChartType = "denormalised-scatterline")
    (hinv : c.inData.rowCountInvariant)
    (hs : c.inData.SSS ≠ []) (ht : c.inData.TSS ≠ [])
    (hfne : ∀ r ∈ c.inData.FSS, r ≠ []) :
    c.dispatch env order = Except.ok
      { ChartType := "line", ActualChartType := "scatterline",
        Datasets := (order.visit (groupsFrom env false (c.timeRows env) 0
          (distinct ((c.timeRows env).map Prod.fst)))).map Prod.snd,
        UsesTimeScale := true } := by
  obtain ⟨hsl, htl, hsne, htne⟩ := hinv
  have hF : c.inData.FSS ≠ [] := by
    intro h
    have := hsl hs
    rw [h] at this
    exact hs (List.length_eq_zero.mp this)
  have hloop := denormLoop_groups env c (c.timePoint env) (List.range c.inData.FSS.length)
    (fun i hi => denormPoint_time env c i ht htne hfne (List.mem_range.mp hi)
      (by rw [htl ht]; exact List.mem_range.mp hi))
    (fun i hi => firstText_ok c i (by rw [hsl hs]; exact List.mem_range.mp hi) hsne)
    [] false
  have hnonempty : (List.range c.inData.FSS.length).isEmpty = false := by
    cases hc : c.inData.FSS with
    | nil => exact absurd hc hF
    | cons r rs => simp [List.range_succ]
  unfold cjsChart.dispatch
  simp only [hkind]
  simp only [show ("denormalised-scatterline" = "pie") = False by decide,
    show ("denormalised-scatterline" = "bar") = False by decide,
    show ("denormalised-scatterline" = "line") = False by decide,
    show ("denormalised-scatterline" = "scatterline") = False by decide, if_false, if_true]
  show (cjsChart.denormLoop env c (List.range c.inData.FSS.length) [] false >>= _) = _
  have hstart : ([] : GoMap String cjsDataset)
      = groupsFrom env false [] 0 (distinct (([] : List (String × cjsDataPoint)).map Prod.fst)) :=
    rfl
  rw [hstart, hloop]
  simp only [Except.bind, bind, List.nil_append, hnonempty, (hasTimes_eq_true _).mpr ht]
  rfl

theorem groupsFrom_keys (env : Collaborators) (fill : Bool)
    (rows : List (String × cjsDataPoint)) (keys : List String) (j : Nat) :
    (groupsFrom env fill rows j keys).map Prod.fst = keys := by
  induction keys generalizing j with
  | nil => rfl
  | cons k ks ih => simp [groupsFrom, ih]

theorem groupsFrom_mem (env : Collaborators) (fill : Bool)
    (rows : List (String × cjsDataPoint)) (keys : List String) (j : Nat)
    (e : String × cjsDataset) (he : e ∈ groupsFrom env fill rows j keys) :
    e.1 ∈ keys ∧ e.2.Label = e.1 ∧ e.2.Fill = fill ∧
      e.2.ComplexData = (rows.filter (fun r => decide (r.1 = e.1))).map Prod.snd := by
  induction keys generalizing j with
  | nil => simp [groupsFrom] at he
  | cons k ks ih =>
    simp only [groupsFrom, List.mem_cons] at he
    rcases he with h | h
    · subst h
      simp [groupDataset]
    · obtain ⟨h1, h2⟩ := ih (j + 1) h
      exact ⟨List.mem_cons_of_mem k h1, h2⟩

theorem groupsFrom_sizes (env : Collaborators) (fill : Bool)
    (rows : List (String × cjsDataPoint)) (keys : List String) (j : Nat) :
    (groupsFrom env fill rows j keys).map (fun e => e.2.ComplexData.length)
      = keys.map (fun k => (rows.map Prod.fst).count k) := by
  induction keys generalizing j with
  | nil => rfl
  | cons k ks ih =>
    simp only [groupsFrom, List.map_cons, ih, groupDataset, List.length_map]
    congr 1
    rw [List.count, List.countP_map, List.countP_eq_length_filter]
    congr 1

theorem sum_count_distinct (l : List String) :
    ((distinct l).map (fun k => l.count k)).sum = l.length := by
  have hperm : (distinct l).Perm l.dedup :=
    (List.perm_ext_iff_of_nodup (nodup_distinct l) (List.nodup_dedup l)).mpr
      (fun a => by rw [mem_distinct, List.mem_dedup])
  rw [(hperm.map _).sum_eq]
  exact List.sum_map_count_dedup_eq_length l

theorem resolve_denorm (i : inData) (hkind : i.ChartType = "line")
    (hres : i.resolveChartType = "denormalised-scatterline") :
    i.SSS ≠ [] ∧ i.TSS ≠ [] := by
  unfold inData.resolveChartType at hres
  rw [← hasStrings_eq_true, ← hasTimes_eq_true]
  cases hs : i.hasStrings <;> cases ht : i.hasTimes <;> simp [hkind, hs, ht] at hres
  exact ⟨rfl, rfl⟩

theorem labelsAndDatasets_denorm (env : Collaborators) (order : MapOrder) (c : cjsChart)
    (hkind : c.inData.ChartType = "line")
    (hres : c.inData.resolveChartType = "denormalised-scatterline")
    (hinv : c.inData.rowCountInvariant)
    (hfne : ∀ row ∈ c.inData.FSS, row ≠ []) :
    c.labelsAndDatasets env order = Except.ok
      { ChartType := "line", ActualChartType := "scatterline",
        Datasets := (order.visit (groupsFrom env false (c.timeRows env) 0
          (distinct ((c.timeRows env).map Prod.fst)))).map Prod.snd,
        UsesTimeScale := true } :=
  dispatch_denorm env order
    { c with inData := { c.inData with ChartType := c.inData.resolveChartType } }
    hres hinv (resolve_denorm _ hkind hres).1 (resolve_denorm _ hkind hres).2 hfne

theorem get?_cssFrom_not_mem (s : String) (keys : List String) (j : Nat) (h : s ∉ keys) :
    GoMap.get? (cssFrom j keys) s = none := by
  induction keys generalizing j with
  | nil => rfl
  | cons k ks ih =>
    have hk : k ≠ s := fun e => h (by simp [e])
    have hks : s ∉ ks := fun e => h (by simp [e])
    simp [cssFrom, GoMap.get?, hk, ih (j + 1) hks]

theorem get?_cssFrom_mem (s : String) (keys : List String) (j : Nat) (h : s ∈ keys) :
    GoMap.get? (cssFrom j keys) s = some (j + keys.indexOf s) := by
  induction keys generalizing j with
  | nil => simp at h
  | cons k ks ih =>
    by_cases hk : k = s
    · subst hk
      simp [cssFrom, GoMap.get?]
    · have hs : s ∈ ks := by
        rcases List.mem_cons.mp h with e | e
        · exact absurd e.symm hk
        · exact e
      simp only [cssFrom, GoMap.get?, hk, if_false, ih (j + 1) hs]
      rw [List.indexOf_cons_ne _ (fun e => hk e)]
      congr 1
      omega

theorem set_cssFrom_snoc (s : String) (keys : List String) (j : Nat) (h : s ∉ keys) :
    GoMap.set (cssFrom j keys) s (j + keys.length) = cssFrom j (keys ++ [s]) := by
  induction keys generalizing j with
  | nil => rfl
  | cons k ks ih =>
    have hk : k ≠ s := fun e => h (by simp [e])
    have hks : s ∉ ks := fun e => h (by simp [e])
    rw [List.cons_append]
    simp only [cssFrom, GoMap.set, hk, if_false, List.length_cons]
    rw [← ih (j + 1) hks]
    congr 2
    omega

theorem set_ilsFrom_snoc (s : String) (keys : List String) (j : Nat) :
    GoMap.set (ilsFrom j keys) (j + keys.length) s = ilsFrom j (keys ++ [s]) := by
  induction keys generalizing j with
  | nil => rfl
  | cons k ks ih =>
    rw [List.cons_append]
    have hj : ¬ (j = j + (ks.length + 1)) := by omega
    simp only [ilsFrom, GoMap.set, hj, if_false, List.length_cons]
    rw [← ih (j + 1)]
    congr 2
    omega

theorem get?_ilsFrom (keys : List String) (j m : Nat) (hm : m < keys.length) :
    GoMap.get? (ilsFrom j keys) (j + m) = some (keys.getD m "") := by
  induction keys generalizing j m with
  | nil => simp at hm
  | cons k ks ih =>
    cases m with
    | zero => simp [ilsFrom, GoMap.get?]
    | succ m =>
      have hj : ¬ (j = j + (m + 1)) := by omega
      simp only [ilsFrom, GoMap.get?, hj, if_false]
      rw [show j + (m + 1) = (j + 1) + m by omega, ih (j + 1) m (by simpa using hm)]
      simp

/-- The category scan on rows that all have a first text value. -/
theorem scatterCategories_distinct (rest : List (List String)) (hne : ∀ r ∈ rest, r ≠ [])
    (pre : List String) :
    scatterCategories rest (cssFrom 0 (distinct pre)) (ilsFrom 0 (distinct pre))
        (distinct pre).length
      = (cssFrom 0 (distinct (pre ++ rest.map (fun r => r.getD 0 ""))),
         ilsFrom 0 (distinct (pre ++ rest.map (fun r => r.getD 0 ""))),
         (distinct (pre ++ rest.map (fun r => r.getD 0 ""))).length) := by
  induction rest generalizing pre with
  | nil => simp [scatterCategories]
  | cons r rs ih =>
    cases r with
    | nil => exact absurd rfl (hne [] (List.mem_cons_self _ _))
    | cons s tl =>
      have hrs : ∀ r ∈ rs, r ≠ [] := fun r hr => hne r (List.mem_cons_of_mem _ hr)
      have hstep := ih hrs (pre ++ [s])
      rw [distinct_snoc] at hstep
      simp only [List.map_cons, List.getD_cons_zero]
      rw [show pre ++ s :: rs.map (fun r => r.getD 0 "")
        = (pre ++ [s]) ++ rs.map (fun r => r.getD 0 "") by simp]
      unfold scatterCategories
      by_cases hmem : s ∈ pre
      · rw [if_pos hmem] at hstep
        rw [get?_cssFrom_mem s _ 0 ((mem_distinct _ _).mpr hmem)]
        exact hstep
      · rw [if_neg hmem] at hstep
        have hnot : s ∉ distinct pre := fun h => hmem ((mem_distinct _ _).mp h)
        rw [get?_cssFrom_not_mem s _ 0 hnot]
        simp only []
        have h1 := set_cssFrom_snoc s (distinct pre) 0 hnot
        have h2 := set_ilsFrom_snoc s (distinct pre) 0
        rw [Nat.zero_add] at h1 h2
        rw [h1, h2]
        simpa using hstep

theorem assign_append {α : Type} (done rest : List α) (r v : α) :
    assign (done ++ r :: rest) done.length v = Except.ok (done ++ v :: rest) := by
  unfold assign
  simp

theorem scatterInit_range (env : Collaborators) (ils : GoMap Nat String)
    (rest done : List cjsDataset) (m : Nat) (hm : done.length = m) :
    scatterInit env ils (List.range' m rest.length) (done ++ rest)
      = Except.ok (done ++ (List.range' m rest.length).map (fun j =>
          ({ Fill := true, Label := (GoMap.get? ils j).getD "", ComplexData := [],
             BackgroundColor := env.colorIndex j, BorderColor := env.colorIndex j }
            : cjsDataset))) := by
  induction rest generalizing done m with
  | nil => simp [scatterInit]
  | cons r rs ih =>
    simp only [List.length_cons, List.range'_succ, List.map_cons]
    unfold scatterInit
    rw [← hm, assign_append]
    simp only []
    have hv : ∀ v : cjsDataset,
        scatterInit env ils (List.range' (done.length + 1) rs.length) (done ++ v :: rs)
          = Except.ok (done ++ v :: (List.range' (done.length + 1) rs.length).map (fun j =>
              ({ Fill := true, Label := (GoMap.get? ils j).getD "", ComplexData := [],
                 BackgroundColor := env.colorIndex j, BorderColor := env.colorIndex j }
                : cjsDataset))) := by
      intro v
      have := ih (done ++ [v]) (done.length + 1) (by simp)
      simp only [List.append_assoc, List.singleton_append] at this
      exact this
    exact hv _

theorem groupsFrom_empty (env : Collaborators) (keys : List String) (j : Nat) :
    (groupsFrom env true [] j keys).map Prod.snd
      = (List.range' j keys.length).map (fun m =>
          ({ Fill := true, Label := (GoMap.get? (ilsFrom j keys) m).getD "", ComplexData := [],
             BackgroundColor := env.colorIndex m, BorderColor := env.colorIndex m }
            : cjsDataset)) := by
  induction keys generalizing j with
  | nil => rfl
  | cons k ks ih =>
    simp only [groupsFrom, List.map_cons, List.length_cons, List.range'_succ, ih (j + 1)]
    congr 1
    · simp [groupDataset, ilsFrom, GoMap.get?]
    · apply List.map_congr_left
      intro m hm
      have hj : ¬ (j = m) := by
        have := (List.mem_range'_1.mp hm).1
        omega
      simp [ilsFrom, GoMap.get?, hj]

theorem radiusToken_ok (env : Collaborators) (c : cjsChart) (fs : List ℚ) (col : Nat)
    (h : col + 1 ≤ fs.length → col < c.inData.MinFSS.length ∧ col < c.inData.MaxFSS.length) :
    c.radiusToken env fs col = Except.ok (c.radiusText env fs col) := by
  unfold cjsChart.radiusToken cjsChart.radiusText
  by_cases hc : fs.length ≥ col + 1
  · obtain ⟨h1, h2⟩ := h hc
    simp only [hc, if_true]
    show (index fs col >>= _) = _
    rw [index_ok fs col 0 (by omega)]
    simp only [Except.bind, bind]
    rw [index_ok _ col 0 h1]
    simp only []
    rw [index_ok _ col 0 h2]
    rfl
  · simp only [hc, if_false]
    rfl

theorem scatterPoint_ok (env : Collaborators) (c : cjsChart) (i : Nat)
    (hinv : c.inData.rowCountInvariant) (hfne : ∀ row ∈ c.inData.FSS, row ≠ [])
    (hrad : c.inData.radiusBoundsPresent) (hi : i < c.inData.FSS.length) :
    c.scatterPoint env i = Except.ok (c.bubblePoint env i) := by
  obtain ⟨_, htl, _, htne⟩ := hinv
  have hrow := getD_mem_of_lt c.inData.FSS [] i hi
  have hrow0 : 0 < (c.inData.FSS.getD i []).length := List.length_pos.mpr (hfne _ hrow)
  have hr := hrad _ hrow
  unfold cjsChart.scatterPoint cjsChart.bubblePoint
  by_cases ht : c.inData.TSS = []
  · have hT := (hasTimes_eq_false _).mpr ht
    simp only [inData.radiusColumn, hT, Bool.false_eq_true, if_false] at hr ⊢
    show (index c.inData.FSS i >>= _) = _
    rw [index_ok _ i [] hi]
    simp only [Except.bind, bind]
    rw [index_ok _ 0 0 hrow0]
    simp only []
    rw [radiusToken_ok env c _ 2 hr]
    by_cases h2 : (c.inData.FSS.getD i []).length ≥ 2
    · simp only [h2, if_true]
      rw [index_ok _ 1 0 (by omega)]
      rfl
    · simp only [h2, if_false]
      rfl
  · have hT := (hasTimes_eq_true _).mpr ht
    have hi' : i < c.inData.TSS.length := by rw [htl ht]; exact hi
    simp only [inData.radiusColumn, hT, if_true] at hr ⊢
    show (index c.inData.TSS i >>= _) = _
    rw [index_ok _ i [] hi']
    simp only [Except.bind, bind]
    rw [index_zero_ok _ 0 (htne _ (getD_mem_of_lt _ _ _ hi'))]
    simp only []
    rw [index_ok _ i [] hi]
    simp only []
    rw [index_ok _ 0 0 hrow0]
    simp only []
    rw [radiusToken_ok env c _ 1 hr]
    rfl

theorem appendPoint_zero (x : cjsDataset) (xs : List cjsDataset) (d : cjsDataPoint) :
    appendPoint (x :: xs) 0 d
      = Except.ok ({ x with ComplexData := x.ComplexData ++ [d] } :: xs) := by
  simp [appendPoint, index, assign]

theorem appendPoint_succ (x : cjsDataset) (xs : List cjsDataset) (n : Nat) (d : cjsDataPoint)
    (ys : List cjsDataset) (h : appendPoint xs n d = Except.ok ys) :
    appendPoint (x :: xs) (n + 1) d = Except.ok (x :: ys) := by
  unfold appendPoint at h ⊢
  unfold index at h ⊢
  simp only [List.getElem?_cons_succ]
  cases hx : xs[n]? with
  | none => simp [hx] at h
  | some m =>
    simp only [hx] at h ⊢
    unfold assign at h ⊢
    by_cases hn : n < xs.length
    · simp only [hn, if_true] at h
      simp only [List.length_cons, Nat.add_lt_add_iff_right, hn, if_true, List.set_cons_succ]
      injection h with h
      rw [h]
    · simp [hn] at h

theorem appendPoint_groups (env : Collaborators) (fill : Bool)
    (rows : List (String × cjsDataPoint)) (s : String) (d : cjsDataPoint)
    (keys : List String) (j : Nat) (h : s ∈ keys) (hn : keys.Nodup) :
    appendPoint ((groupsFrom env fill rows j keys).map Prod.snd) (keys.indexOf s) d
      = Except.ok ((groupsFrom env fill (rows ++ [(s, d)]) j keys).map Prod.snd) := by
  induction keys generalizing j with
  | nil => simp at h
  | cons k ks ih =>
    have hnk : k ∉ ks := (List.nodup_cons.mp hn).1
    by_cases hk : k = s
    · subst hk
      simp only [groupsFrom, List.map_cons, List.indexOf_cons_self]
      rw [appendPoint_zero, groupsFrom_snoc_not_mem env fill rows k d ks (j + 1) hnk,
        groupDataset_snoc_eq]
    · have hs : s ∈ ks := by
        rcases List.mem_cons.mp h with e | e
        · exact absurd e.symm hk
        · exact e
      simp only [groupsFrom, List.map_cons]
      rw [List.indexOf_cons_ne _ (fun e => hk e),
        appendPoint_succ _ _ _ _ _ (ih (j + 1) hs (List.nodup_cons.mp hn).2),
        groupDataset_snoc_ne env fill rows j k s d (Ne.symm hk)]

theorem scatterBucket_text (c : cjsChart) (keys : List String) (i : Nat)
    (hs : c.inData.SSS ≠ [])
    (hcat : c.firstText i = Except.ok (c.category i)) (hmem : c.category i ∈ keys) :
    c.scatterBucket (cssFrom 0 keys) i = Except.ok (keys.indexOf (c.category i)) := by
  unfold cjsChart.scatterBucket
  simp only [(hasStrings_eq_true _).mpr hs, if_true]
  rw [hcat]
  simp [Except.map, get?_cssFrom_mem _ _ 0 hmem]

theorem scatterBucket_plain (c : cjsChart) (css : GoMap String Nat) (i : Nat)
    (hs : c.inData.SSS = []) :
    c.scatterBucket css i = Except.ok 0 := by
  unfold cjsChart.scatterBucket
  simp only [(hasStrings_eq_false _).mpr hs, Bool.false_eq_true, if_false]
  rfl

theorem scatterLoop_groups (env : Collaborators) (c : cjsChart) (keys : List String)
    (hn : keys.Nodup) (hs : c.inData.SSS ≠ [])
    (is : List Nat)
    (hpt : ∀ i ∈ is, c.scatterPoint env i = Except.ok (c.bubblePoint env i))
    (hcat : ∀ i ∈ is, c.firstText i = Except.ok (c.category i))
    (hmem : ∀ i ∈ is, c.category i ∈ keys)
    (pre : List (String × cjsDataPoint)) (u : Bool) :
    c.scatterLoop env (cssFrom 0 keys) is ((groupsFrom env true pre 0 keys).map Prod.snd) u
      = Except.ok
          ((groupsFrom env true
              (pre ++ is.map (fun i => (c.category i, c.bubblePoint env i))) 0 keys).map
              Prod.snd,
           u || (c.inData.hasTimes && !is.isEmpty)) := by
  induction is generalizing pre u with
  | nil => simp [cjsChart.scatterLoop]
  | cons i is ih =>
    have hi := List.mem_cons_self i is
    unfold cjsChart.scatterLoop
    rw [hpt i hi, scatterBucket_text c keys i hs (hcat i hi) (hmem i hi)]
    simp only []
    rw [appendPoint_groups env true pre _ _ keys 0 (hmem i hi) hn]
    simp only []
    rw [ih (fun j hj => hpt j (List.mem_cons_of_mem i hj))
      (fun j hj => hcat j (List.mem_cons_of_mem i hj))
      (fun j hj => hmem j (List.mem_cons_of_mem i hj))]
    simp only [List.map_cons, List.append_assoc, List.singleton_append, List.isEmpty_cons,
      Bool.not_false, Bool.and_true, Bool.or_assoc]
    cases c.inData.hasTimes <;> cases is.isEmpty <;> simp

theorem scatterLoop_plain (env : Collaborators) (c : cjsChart) (css : GoMap String Nat)
    (hs : c.inData.SSS = [])
    (is : List Nat)
    (hpt : ∀ i ∈ is, c.scatterPoint env i = Except.ok (c.bubblePoint env i))
    (ds : cjsDataset) (u : Bool) :
    c.scatterLoop env css is [ds] u
      = Except.ok
          ([{ ds with ComplexData := ds.ComplexData ++ is.map (fun i => c.bubblePoint env i) }],
           u || (c.inData.hasTimes && !is.isEmpty)) := by
  induction is generalizing ds u with
  | nil => simp [cjsChart.scatterLoop]
  | cons i is ih =>
    unfold cjsChart.scatterLoop
    rw [hpt i (List.mem_cons_self i is), scatterBucket_plain c css i hs]
    simp only []
    rw [appendPoint_zero]
    simp only []
    rw [ih (fun j hj => hpt j (List.mem_cons_of_mem i hj))]
    simp only [List.map_cons, List.append_assoc, List.singleton_append, List.isEmpty_cons,
      Bool.not_false, Bool.and_true, Bool.or_assoc]
    cases c.inData.hasTimes <;> cases is.isEmpty <;> simp

theorem dispatch_scatter_text (env : Collaborators) (order : MapOrder) (c : cjsChart)
    (hkind : c.inData.ChartType = "scatter")
    (hinv : c.inData.rowCountInvariant) (hfne : ∀ row ∈ c.inData.FSS, row ≠ [])
    (hrad : c.inData.radiusBoundsPresent) (hs : c.inData.SSS ≠ []) :
    c.dispatch env order = Except.ok
      { ChartType := "bubble", ActualChartType := "scatter",
        Datasets := (groupsFrom env true (c.bubbleRows env) 0
          (distinct c.inData.categories)).map Prod.snd,
        UsesTimeScale := c.inData.hasTimes } := by
  have hsl : c.inData.SSS.length = c.inData.FSS.length := hinv.1 hs
  have hF : c.inData.FSS ≠ [] := by
    intro h
    rw [h] at hsl
    exact hs (List.length_eq_zero.mp hsl)
  have hnonempty : (List.range c.inData.FSS.length).isEmpty = false := by
    cases hc : c.inData.FSS with
    | nil => exact absurd hc hF
    | cons r rs => simp [List.range_succ]
  have hcats : scatterCategories c.inData.SSS (cssFrom 0 (distinct [])) (ilsFrom 0 (distinct []))
      (distinct []).length
      = (cssFrom 0 (distinct c.inData.categories), ilsFrom 0 (distinct c.inData.categories),
          (distinct c.inData.categories).length) :=
    scatterCategories_distinct c.inData.SSS hinv.2.2.1 []
  have hcat0 : distinct c.inData.categories ≠ [] := by
    intro h
    cases hS : c.inData.SSS with
    | nil => exact hs hS
    | cons r rs =>
      have : r.getD 0 "" ∈ distinct c.inData.categories := by
        rw [mem_distinct]
        simp [inData.categories, hS]
      rw [h] at this
      simp at this
  have hlen0 : (distinct c.inData.categories).length ≠ 0 := by
    intro h
    exact hcat0 (List.length_eq_zero.mp h)
  have hinit := scatterInit_range env (ilsFrom 0 (distinct c.inData.categories))
    (List.replicate (distinct c.inData.categories).length ({} : cjsDataset)) [] 0 rfl
  simp only [List.length_replicate, List.nil_append, ← List.range_eq_range'] at hinit
  have hgroups := groupsFrom_empty env (distinct c.inData.categories) 0
  rw [← List.range_eq_range'] at hgroups
  have hcatmem : ∀ i ∈ List.range c.inData.FSS.length,
      c.category i ∈ distinct c.inData.categories := by
    intro i hi
    rw [mem_distinct, inData.categories, ← range_map_getD c.inData.SSS [] (fun r => r.getD 0 "")]
    exact List.mem_map.mpr ⟨i, by rw [hsl]; exact hi, rfl⟩
  have hloop := scatterLoop_groups env c (distinct c.inData.categories) (nodup_distinct _) hs
    (List.range c.inData.FSS.length)
    (fun i hi => scatterPoint_ok env c i hinv hfne hrad (List.mem_range.mp hi))
    (fun i hi => firstText_ok c i (by rw [hsl]; exact List.mem_range.mp hi) hinv.2.2.1)
    hcatmem [] false
  unfold cjsChart.dispatch
  simp only [hkind]
  simp only [show ("scatter" = "pie") = False by decide,
    show ("scatter" = "bar") = False by decide,
    show ("scatter" = "line") = False by decide,
    show ("scatter" = "scatterline") = False by decide,
    show ("scatter" = "denormalised-scatterline") = False by decide, if_false, if_true]
  show (match scatterCategories c.inData.SSS [] [] 0 with | (css, ils, i) => _) = _
  have hstart : scatterCategories c.inData.SSS [] [] 0
      = scatterCategories c.inData.SSS (cssFrom 0 (distinct [])) (ilsFrom 0 (distinct []))
          (distinct []).length := rfl
  rw [hstart, hcats]
  simp only []
  show (scatterInit env _ _ (if (distinct c.inData.categories).length = 0 then _ else _)
    >>= _) = _
  rw [if_neg hlen0, hinit, ← hgroups]
  simp only [Except.bind, bind]
  rw [hloop]
  simp only [List.nil_append, hnonempty, Bool.false_or, Bool.not_false, Bool.and_true]
  rfl

theorem dispatch_scatter_plain (env : Collaborators) (order : MapOrder) (c : cjsChart)
    (hkind : c.inData.ChartType = "scatter")
    (hinv : c.inData.rowCountInvariant) (hfne : ∀ row ∈ c.inData.FSS, row ≠ [])
    (hrad : c.inData.radiusBoundsPresent) (hs : c.inData.SSS = []) :
    c.dispatch env order = Except.ok
      { ChartType := "bubble", ActualChartType := "scatter",
        Datasets := [{ Fill := true, Label := "category 0",
                       ComplexData := (List.range c.inData.FSS.length).map
                         (fun i => c.bubblePoint env i),
                       BackgroundColor := env.colorIndex 0, BorderColor := env.colorIndex 0 }],
        UsesTimeScale := c.inData.hasTimes } := by
  have hflag : (c.inData.hasTimes && !(List.range c.inData.FSS.length).isEmpty)
      = c.inData.hasTimes := by
    by_cases ht : c.inData.TSS = []
    · simp [(hasTimes_eq_false _).mpr ht]
    · have hl := hinv.2.1 ht
      cases hc : c.inData.FSS with
      | nil =>
        rw [hc] at hl
        exact absurd (List.length_eq_zero.mp hl) ht
      | cons r rs => simp [List.range_succ]
  have hloop := scatterLoop_plain env c [] hs (List.range c.inData.FSS.length)
    (fun i hi => scatterPoint_ok env c i hinv hfne hrad (List.mem_range.mp hi))
    { Fill := true, Label := "category 0", ComplexData := [],
      BackgroundColor := env.colorIndex 0, BorderColor := env.colorIndex 0 } false
  unfold cjsChart.dispatch
  simp only [hkind]
  simp only [show ("scatter" = "pie") = False by decide,
    show ("scatter" = "bar") = False by decide,
    show ("scatter" = "line") = False by decide,
    show ("scatter" = "scatterline") = False by decide,
    show ("scatter" = "denormalised-scatterline") = False by decide, if_false, if_true]
  rw [hs]
  show (cjsChart.scatterLoop env c [] (List.range c.inData.FSS.length)
    [({ Fill := true, Label := "category 0", ComplexData := [],
        BackgroundColor := env.colorIndex 0, BorderColor := env.colorIndex 0 } : cjsDataset)]
    false >>= _) = _
  rw [hloop]
  simp only [Except.bind, bind, Bool.false_or, hflag, List.nil_append]
  rfl

theorem categories_eq_range (c : cjsChart)
    (hsl : c.inData.SSS.length = c.inData.FSS.length) :
    c.inData.categories = (List.range c.inData.FSS.length).map (fun i => c.category i) := by
  unfold inData.categories cjsChart.category
  rw [← hsl]
  exact (range_map_getD c.inData.SSS [] (fun r => r.getD 0 "")).symm

theorem length_distinct (l : List String) : (distinct l).length = l.toFinset.card := by
  rw [← List.toFinset_card_of_nodup (nodup_distinct l)]
  congr 1
  ext a
  simp [mem_distinct]

theorem labelsAndDatasets_scatter_text (env : Collaborators) (order : MapOrder) (c : cjsChart)
    (hkind : c.inData.ChartType = "scatter")
    (hinv : c.inData.rowCountInvariant) (hfne : ∀ row ∈ c.inData.FSS, row ≠ [])
    (hrad : c.inData.radiusBoundsPresent) (hs : c.inData.SSS ≠ []) :
    c.labelsAndDatasets env order = Except.ok
      { ChartType := "bubble", ActualChartType := "scatter",
        Datasets := (groupsFrom env true (c.bubbleRows env) 0
          (distinct c.inData.categories)).map Prod.snd,
        UsesTimeScale := c.inData.hasTimes } :=
  dispatch_scatter_text env order
    { c with inData := { c.inData with ChartType := c.inData.resolveChartType } }
    (by
      show c.inData.resolveChartType = "scatter"
      rw [resolve_of_ne_line _ (by rw [hkind]; decide), hkind])
    hinv hfne hrad hs

theorem labelsAndDatasets_scatter_plain (env : Collaborators) (order : MapOrder) (c : cjsChart)
    (hkind : c.inData.ChartType = "scatter")
    (hinv : c.inData.rowCountInvariant) (hfne : ∀ row ∈ c.inData.FSS, row ≠ [])
    (hrad : c.inData.radiusBoundsPresent) (hs : c.inData.SSS = []) :
    c.labelsAndDatasets env order = Except.ok
      { ChartType := "bubble", ActualChartType := "scatter",
        Datasets := [{ Fill := true, Label := "category 0",
                       ComplexData := (List.range c.inData.FSS.length).map
                         (fun i => c.bubblePoint env i),
                       BackgroundColor := env.colorIndex 0, BorderColor := env.colorIndex 0 }],
        UsesTimeScale := c.inData.hasTimes } :=
  dispatch_scatter_plain env order
    { c with inData := { c.inData with ChartType := c.inData.resolveChartType } }
    (by
      show c.inData.resolveChartType = "scatter"
      rw [resolve_of_ne_line _ (by rw [hkind]; decide), hkind])
    hinv hfne hrad hs

theorem dispatch_unknown (env : Collaborators) (order : MapOrder) (c : cjsChart)
    (h : c.inData.ChartType ∉
      ["pie", "bar", "line", "scatter", "scatterline", "denormalised-scatterline"]) :
    c.dispatch env order
      = Except.error (Failure.fatal ("Unknown chart type: " ++ c.inData.ChartType)) := by
  simp only [List.mem_cons, List.mem_singleton, List.not_mem_nil, or_false, not_or] at h
  obtain ⟨h1, h2, h3, h4, h5, h6⟩ := h
  unfold cjsChart.dispatch
  simp only [h1, h2, h3, h4, h5, h6, if_false]

theorem resolve_line_both (i : inData) (hkind : i.ChartType = "line") (hs : i.SSS ≠ [])
    (ht : i.TSS ≠ []) (htne : ∀ r ∈ i.TSS, r ≠ []) (hF : i.FSS ≠ [])
    (hfne : ∀ r ∈ i.FSS, r ≠ []) :
    i.resolveChartType = "denormalised-scatterline" := by
  have h1 : 1 ≤ i.floatFieldLen := by
    unfold inData.floatFieldLen inData.hasFloats
    cases hc : i.FSS with
    | nil => exact absurd hc hF
    | cons r rs =>
      have : r ≠ [] := hfne r (by rw [hc]; exact List.mem_cons_self r rs)
      simpa using List.length_pos.mpr this
  have h2 : 1 ≤ i.timeFieldLen := by
    unfold inData.timeFieldLen
    rw [(hasTimes_eq_true i).mpr ht]
    cases hc : i.TSS with
    | nil => exact absurd hc ht
    | cons r rs =>
      have : r ≠ [] := htne r (by rw [hc]; exact List.mem_cons_self r rs)
      simpa using List.length_pos.mpr this
  unfold inData.resolveChartType
  have h3 : i.floatFieldLen + i.timeFieldLen ≥ 2 := by omega
  simp [hkind, (hasStrings_eq_true i).mpr hs, (hasTimes_eq_true i).mpr ht, h3]

/-! ## The result of `labelsAndDatasets`, mode by mode -/

theorem labelsAndDatasets_pie (env : Collaborators) (order : MapOrder) (c : cjsChart)
    (labels : String)
    (hkind : c.inData.ChartType = "pie")
    (hl : c.marshalLabels env = Except.ok labels)
    (hrows : ∀ row ∈ c.inData.FSS, 1 ≤ row.length) :
    c.labelsAndDatasets env order = Except.ok
      { ChartType := "pie", ActualChartType := "pie", Labels := labels,
        Datasets := [{ Fill := true,
                       SimpleData := c.inData.FSS.map (fun row => env.formatG (row.getD 0 0)),
                       BackgroundColor := env.colorFirstN c.inData.FSS.length }] } :=
  dispatch_pie env order
    { c with inData := { c.inData with ChartType := c.inData.resolveChartType } } labels
    (by
      show c.inData.resolveChartType = "pie"
      rw [resolve_of_ne_line _ (by rw [hkind]; decide), hkind])
    hl hrows

theorem labelsAndDatasets_bar_single (env : Collaborators) (order : MapOrder) (c : cjsChart)
    (labels : String)
    (hne : c.inData.FSS ≠ [])
    (hk : ∀ row ∈ c.inData.FSS, row.length = 1)
    (hkind : c.inData.ChartType = "bar")
    (hl : c.marshalLabels env = Except.ok labels) :
    c.labelsAndDatasets env order = Except.ok
      { ChartType := "bar", ActualChartType := "bar", Labels := labels,
        Datasets := [{ Fill := true,
                       SimpleData := c.inData.FSS.map (fun row => env.formatG (row.getD 0 0)),
                       BackgroundColor := env.colorFirstN c.inData.FSS.length }] } :=
  dispatch_bar_single env order
    { c with inData := { c.inData with ChartType := c.inData.resolveChartType } } labels hne hk
    (by
      show c.inData.resolveChartType = "bar"
      rw [resolve_of_ne_line _ (by rw [hkind]; decide), hkind])
    hl

theorem labelsAndDatasets_bar_multi (env : Collaborators) (order : MapOrder) (c : cjsChart)
    (k : Nat) (labels : String)
    (hne : c.inData.FSS ≠ [])
    (hk : ∀ row ∈ c.inData.FSS, row.length = k) (h1 : k ≠ 1)
    (hkind : c.inData.ChartType = "bar")
    (hl : c.marshalLabels env = Except.ok labels) :
    c.labelsAndDatasets env order = Except.ok
      { ChartType := "bar", ActualChartType := "bar", Labels := labels,
        Datasets := (List.range k).map (fun i =>
          { Fill := true, Label := "category " ++ toString i,
            SimpleData := c.inData.FSS.map (fun row => env.formatG (row.getD i 0)),
            BackgroundColor := env.colorRepeat i c.inData.FSS.length }) } :=
  dispatch_bar_multi env order
    { c with inData := { c.inData with ChartType := c.inData.resolveChartType } } k labels hne hk
    h1
    (by
      show c.inData.resolveChartType = "bar"
      rw [resolve_of_ne_line _ (by rw [hkind]; decide), hkind])
    hl

theorem labelsAndDatasets_line (env : Collaborators) (order : MapOrder) (c : cjsChart)
    (k : Nat) (labels : String)
    (hne : c.inData.FSS ≠ [])
    (hk : ∀ row ∈ c.inData.FSS, row.length = k)
    (hkind : c.inData.ChartType = "line") (hs : c.inData.SSS ≠ []) (ht : c.inData.TSS = [])
    (hl : c.marshalLabels env = Except.ok labels) :
    c.labelsAndDatasets env order = Except.ok
      { ChartType := "line", ActualChartType := "line", Labels := labels,
        Datasets := (List.range k).map (fun i =>
          { Fill := false, Label := "category " ++ toString i,
            SimpleData := c.inData.FSS.map (fun row => env.formatG (row.getD i 0)),
            BorderColor := env.colorIndex i, BackgroundColor := env.colorIndex i }) } :=
  dispatch_line env order
    { c with inData := { c.inData with ChartType := c.inData.resolveChartType } } k labels hne hk
    (resolve_line_text _ hkind hs ht) hl

theorem labelsAndDatasets_scatterline_plain (env : Collaborators) (order : MapOrder)
    (c : cjsChart) (k : Nat) (hkind : c.inData.ChartType = "line")
    (hne : c.inData.FSS ≠ []) (hs : c.inData.SSS = []) (ht : c.inData.TSS = [])
    (hk : ∀ row ∈ c.inData.FSS, row.length = k) (hk1 : 1 ≤ k) :
    c.labelsAndDatasets env order = Except.ok
      { ChartType := "line", ActualChartType := "scatterline",
        Datasets := (List.range (k - 1)).map (fun n =>
          ({ Fill := false, Label := "category " ++ toString n,
             ComplexData := c.inData.FSS.map (fun row =>
               ({ X := env.formatG (row.getD 0 0),
                  Y := env.formatG (row.getD (n + 1) 0) } : cjsDataPoint)),
             BorderColor := env.colorIndex n,
             BackgroundColor := env.colorIndex n } : cjsDataset)),
        UsesTimeScale := false } :=
  dispatch_scatterline_plain env order
    { c with inData := { c.inData with ChartType := c.inData.resolveChartType } } k
    (resolve_line_plain _ hkind hs) ht hne hk hk1

theorem labelsAndDatasets_scatterline_time (env : Collaborators) (order : MapOrder)
    (c : cjsChart) (k : Nat) (hkind : c.inData.ChartType = "line")
    (hs : c.inData.SSS = []) (ht : c.inData.TSS ≠ [])
    (htne : ∀ r ∈ c.inData.TSS, r ≠ [])
    (hlen : c.inData.TSS.length = c.inData.FSS.length)
    (hk : ∀ row ∈ c.inData.FSS, row.length = k) :
    c.labelsAndDatasets env order = Except.ok
      { ChartType := "line", ActualChartType := "scatterline",
        Datasets := (List.range k).map (fun n =>
          ({ Fill := false, Label := "category " ++ toString n,
             ComplexData := (List.range c.inData.FSS.length).map (fun i =>
               ({ X := c.timeToken env i,
                  Y := env.formatG ((c.inData.FSS.getD i []).getD n 0) } : cjsDataPoint)),
             BorderColor := env.colorIndex n,
             BackgroundColor := env.colorIndex n } : cjsDataset)),
        UsesTimeScale := !(List.range k).isEmpty } :=
  dispatch_scatterline_time env order
    { c with inData := { c.inData with ChartType := c.inData.resolveChartType } } k
    (resolve_line_plain _ hkind hs) ht htne hlen hk

/-! ## Lemmas on returned charts -/

theorem resolve_denorm_of_enum (i : inData)
    (hreq : i.ChartType ∈ ["pie", "bar", "line", "scatter"])
    (hres : i.resolveChartType = "denormalised-scatterline") :
    i.ChartType = "line" := by
  by_contra hne
  rw [resolve_of_ne_line i hne] at hres
  rw [hres] at hreq
  revert hreq
  decide

theorem index_inv {α : Type} (xs : List α) (i : Nat) (d v : α)
    (h : index xs i = Except.ok v) : v = xs.getD i d := by
  by_cases hi : i < xs.length
  · rw [index_ok xs i d hi] at h
    injection h with h
    exact h.symm
  · rw [index_error xs i (by omega)] at h
    cases h

theorem denormPoint_time_form (env : Collaborators) (c : cjsChart) (i : Nat)
    (p : cjsDataPoint) (ht : c.inData.hasTimes = true)
    (h : c.denormPoint env i = Except.ok p) :
    p.X = quote ++ env.formatTime ((c.inData.TSS.getD i []).getD 0 0) ++ quote ∧
    p.Y = env.formatG ((c.inData.FSS.getD i []).getD 0 0) := by
  unfold cjsChart.denormPoint at h
  simp only [ht, if_true] at h
  cases e1 : index c.inData.TSS i with
  | error e => simp only [bind, Except.bind, e1] at h; cases h
  | ok ts =>
    simp only [bind, Except.bind, e1] at h
    cases e2 : index ts 0 with
    | error e => simp only [e2] at h; cases h
    | ok t =>
      simp only [e2] at h
      cases e3 : index c.inData.FSS i with
      | error e => simp only [e3] at h; cases h
      | ok fs =>
        simp only [e3] at h
        cases e4 : index fs 0 with
        | error e => simp only [e4] at h; cases h
        | ok f =>
          simp only [e4, pure, Except.pure] at h
          injection h with h
          subst h
          have a1 := index_inv _ _ [] _ e1
          have a3 := index_inv _ _ [] _ e3
          subst a1
          subst a3
          rw [index_inv _ _ 0 _ e2, index_inv _ _ 0 _ e4]
          exact ⟨rfl, rfl⟩

theorem dispatch_line_actual (env : Collaborators) (order : MapOrder) (c : cjsChart)
    (d : cjsData) (hkind : c.inData.ChartType = "line")
    (h : c.dispatch env order = Except.ok d) : d.ActualChartType = "line" := by
  unfold cjsChart.dispatch at h
  simp only [hkind, show ("line" = "pie") = False by decide,
    show ("line" = "bar") = False by decide, if_false, if_true] at h
  cases h0 : index c.inData.FSS 0 with
  | error e => simp [bind, Except.bind, h0] at h
  | ok row0 =>
    simp only [bind, Except.bind, h0] at h
    split at h
    · cases h
    · split at h
      · cases h
      · simp only [pure, Except.pure] at h
        injection h with h
        subst h
        rfl

theorem appendPoint_header (dss dss' : List cjsDataset) (j : Nat) (d : cjsDataPoint)
    (h : appendPoint dss j d = Except.ok dss') :
    dss'.map cjsDataset.header = dss.map cjsDataset.header := by
  unfold appendPoint at h
  cases hx : index dss j with
  | error e => simp only [hx] at h; cases h
  | ok m =>
    simp only [hx] at h
    unfold assign at h
    by_cases hj : j < dss.length
    · simp only [hj, if_true] at h
      injection h with h
      subst h
      have hm : m = dss[j] := by
        have := index_inv dss j m m hx
        rw [List.getD_eq_getElem _ _ hj] at this
        exact this
      rw [List.map_set]
      apply List.ext_getElem
      · simp
      · intro n h1 h2
        by_cases hn : j = n
        · subst hn
          simp [hm, cjsDataset.header]
        · simp [List.getElem_set_ne hn]
    · simp only [hj, if_false] at h
      cases h

theorem scatterLoop_header (env : Collaborators) (c : cjsChart) (css : GoMap String Nat)
    (is : List Nat) (dss : List cjsDataset) (u : Bool) (r : List cjsDataset × Bool)
    (h : c.scatterLoop env css is dss u = Except.ok r) :
    r.1.map cjsDataset.header = dss.map cjsDataset.header := by
  induction is generalizing dss u with
  | nil =>
    simp only [cjsChart.scatterLoop] at h
    injection h with h
    subst h
    rfl
  | cons i is ih =>
    unfold cjsChart.scatterLoop at h
    cases hp : c.scatterPoint env i with
    | error e => simp only [hp] at h; cases h
    | ok p =>
      simp only [hp] at h
      cases hb : c.scatterBucket css i with
      | error e => simp only [hb] at h; cases h
      | ok j =>
        simp only [hb] at h
        cases ha : appendPoint dss j p with
        | error e => simp only [ha] at h; cases h
        | ok dss1 =>
          simp only [ha] at h
          rw [ih dss1 _ h, appendPoint_header dss dss1 j p ha]

theorem groupsFrom_getElem? (env : Collaborators) (fill : Bool)
    (rows : List (String × cjsDataPoint)) (keys : List String) (j m : Nat) :
    (groupsFrom env fill rows j keys)[m]?
      = (keys[m]?).map (fun k => (k, groupDataset env fill rows (j + m) k)) := by
  induction keys generalizing j m with
  | nil => simp [groupsFrom]
  | cons k ks ih =>
    cases m with
    | zero => simp [groupsFrom]
    | succ m =>
      simp only [groupsFrom, List.getElem?_cons_succ, ih (j + 1) m]
      rw [show j + 1 + m = j + (m + 1) by omega]

theorem categories_ne_nil (i : inData) (hs : i.SSS ≠ []) : distinct i.categories ≠ [] := by
  intro h
  cases hS : i.SSS with
  | nil => exact hs hS
  | cons r rs =>
    have : r.getD 0 "" ∈ distinct i.categories := by
      rw [mem_distinct]
      simp [inData.categories, hS]
    rw [h] at this
    simp at this

/-- The `scatter` case on text rows that all have a first value: the category scan and
the empty datasets are computed, and the row loop remains. -/
theorem dispatch_scatter_text_loop (env : Collaborators) (order : MapOrder) (c : cjsChart)
    (hkind : c.inData.ChartType = "scatter")
    (hs : c.inData.SSS ≠ []) (htext : ∀ r ∈ c.inData.SSS, r ≠ []) :
    c.dispatch env order
      = (c.scatterLoop env (cssFrom 0 (distinct c.inData.categories))
          (List.range c.inData.FSS.length)
          ((groupsFrom env true [] 0 (distinct c.inData.categories)).map Prod.snd) false).map
          (fun r => { ChartType := "bubble", ActualChartType := "scatter", Datasets := r.1,
                      UsesTimeScale := r.2 }) := by
  have hcats : scatterCategories c.inData.SSS (cssFrom 0 (distinct [])) (ilsFrom 0 (distinct []))
      (distinct []).length
      = (cssFrom 0 (distinct c.inData.categories), ilsFrom 0 (distinct c.inData.categories),
          (distinct c.inData.categories).length) :=
    scatterCategories_distinct c.inData.SSS htext []
  have hlen0 : (distinct c.inData.categories).length ≠ 0 := by
    intro h
    exact categories_ne_nil _ hs (List.length_eq_zero.mp h)
  have hinit := scatterInit_range env (ilsFrom 0 (distinct c.inData.categories))
    (List.replicate (distinct c.inData.categories).length ({} : cjsDataset)) [] 0 rfl
  simp only [List.length_replicate, List.nil_append, ← List.range_eq_range'] at hinit
  have hgroups := groupsFrom_empty env (distinct c.inData.categories) 0
  rw [← List.range_eq_range'] at hgroups
  unfold cjsChart.dispatch
  simp only [hkind]
  simp only [show ("scatter" = "pie") = False by decide,
    show ("scatter" = "bar") = False by decide,
    show ("scatter" = "line") = False by decide,
    show ("scatter" = "scatterline") = False by decide,
    show ("scatter" = "denormalised-scatterline") = False by decide, if_false, if_true]
  show (match scatterCategories c.inData.SSS [] [] 0 with | (css, ils, i) => _) = _
  have hstart : scatterCategories c.inData.SSS [] [] 0
      = scatterCategories c.inData.SSS (cssFrom 0 (distinct [])) (ilsFrom 0 (distinct []))
          (distinct []).length := rfl
  rw [hstart, hcats]
  simp only []
  show (scatterInit env _ _ (if (distinct c.inData.categories).length = 0 then _ else _)
    >>= _) = _
  rw [if_neg hlen0, hinit, ← hgroups]
  simp only [Except.bind, bind]
  cases c.scatterLoop env (cssFrom 0 (distinct c.inData.categories))
    (List.range c.inData.FSS.length)
    ((groupsFrom env true [] 0 (distinct c.inData.categories)).map Prod.snd) false <;> rfl

theorem timeScale_simple (env : Collaborators) (c : cjsChart) (d : cjsData) (r : String)
    (hflag : d.UsesTimeScale = false) (hcd : ∀ ds ∈ d.Datasets, ds.ComplexData = [])
    (hr : r = "pie" ∨ r = "bar" ∨ r = "line") :
    c.timeScaleSpec env d r := by
  refine ⟨?_, fun _ => hflag, ?_⟩
  · rw [hflag]
    constructor
    · intro h
      cases h
    · rintro ⟨ds, hds, p, hp, _⟩
      rw [hcd ds hds] at hp
      cases hp
  · intro h
    exfalso
    rcases hr with e | e | e <;> subst e <;> revert h <;> decide

theorem timeScale_plain (env : Collaborators) (c : cjsChart) (d : cjsData) (r : String)
    (hflag : d.UsesTimeScale = false) (hT : c.inData.TSS = []) :
    c.timeScaleSpec env d r := by
  refine ⟨?_, fun _ => hflag, fun _ => ?_⟩
  · rw [hflag]
    constructor
    · intro h
      cases h
    · rintro ⟨ds, _, p, _, i, hi, _⟩
      rw [hT] at hi
      cases hi
  · rw [hflag]
    constructor
    · intro h
      cases h
    · intro h
      exact absurd hT h.1

theorem timeScale_time (env : Collaborators) (c : cjsChart) (d : cjsData) (r : String)
    (hflag : d.UsesTimeScale = true) (hT : c.inData.TSS ≠ [])
    (hpt : ∃ ds ∈ d.Datasets, ∃ p ∈ ds.ComplexData, c.hasTimeX env p)
    (hr : r = "scatterline" ∨ r = "denormalised-scatterline" ∨ r = "scatter") :
    c.timeScaleSpec env d r := by
  refine ⟨?_, ?_, fun _ => ?_⟩
  · exact ⟨fun _ => hpt, fun _ => hflag⟩
  · intro h
    exfalso
    rcases hr with e | e | e <;> subst e <;> revert h <;> decide
  · refine ⟨fun _ => ⟨hT, ?_⟩, fun _ => hflag⟩
    obtain ⟨ds, hds, p, hp, _⟩ := hpt
    exact ⟨ds, hds, List.ne_nil_of_mem hp⟩

theorem groupsFrom_first_row (env : Collaborators) (fill : Bool)
    (rows : List (String × cjsDataPoint)) (r : String × cjsDataPoint) (hr : r ∈ rows) :
    ∃ e ∈ groupsFrom env fill rows 0 (distinct (rows.map Prod.fst)), r.2 ∈ e.2.ComplexData := by
  have hk : r.1 ∈ distinct (rows.map Prod.fst) := by
    rw [mem_distinct]
    exact List.mem_map.mpr ⟨r, hr, rfl⟩
  have hk' : r.1 ∈ (groupsFrom env fill rows 0 (distinct (rows.map Prod.fst))).map Prod.fst := by
    rw [groupsFrom_keys]
    exact hk
  obtain ⟨e, he, hfst⟩ := List.mem_map.mp hk'
  refine ⟨e, he, ?_⟩
  rw [(groupsFrom_mem env fill rows _ 0 e he).2.2.2]
  exact List.mem_map.mpr ⟨r, List.mem_filter.mpr ⟨hr, by simp [hfst]⟩, rfl⟩

theorem bubblePoint_time_x (env : Collaborators) (c : cjsChart) (i : Nat)
    (ht : c.inData.TSS ≠ []) :
    (c.bubblePoint env i).X
      = quote ++ env.formatTime ((c.inData.TSS.getD i []).getD 0 0) ++ quote := by
  unfold cjsChart.bubblePoint
  rw [(hasTimes_eq_true _).mpr ht]
  rfl

theorem range_isEmpty_false (n : Nat) (h : 1 ≤ n) : (List.range n).isEmpty = false := by
  cases n with
  | zero => omega
  | succ m => simp [List.range_succ]

/-! ## The properties -/

/-- C1: mode resolution. `labelsAndDatasets` dispatches on `resolveChartType`. For a
requested "line" this is one of the two scatter-line modes exactly when the table has no
text rows or has time rows, it is "denormalised-scatterline" exactly when moreover text
rows are present and `floatFieldLen + timeFieldLen >= 2`, and it stays "line" exactly
when there are text rows and no time rows; every other requested kind is used unchanged. -/
theorem resolveChartType_spec (i : inData) :
    (i.ChartType = "line" →
      ((i.resolveChartType = "scatterline" ∨ i.resolveChartType = "denormalised-scatterline") ↔
          (i.hasStrings = false ∨ i.hasTimes = true)) ∧
      (i.resolveChartType = "denormalised-scatterline" ↔
          (i.hasStrings = false ∨ i.hasTimes = true) ∧
            (i.hasStrings = true ∧ i.floatFieldLen + i.timeFieldLen ≥ 2)) ∧
      (i.resolveChartType = "line" ↔ (i.hasStrings = true ∧ i.hasTimes = false))) ∧
    (i.ChartType ≠ "line" → i.resolveChartType = i.ChartType) := by
  unfold inData.resolveChartType
  constructor
  · intro hl
    by_cases h2 : i.floatFieldLen + i.timeFieldLen ≥ 2 <;>
      cases hs : i.hasStrings <;> cases ht : i.hasTimes <;> simp [hl, hs, ht, h2]
  · intro hl
    simp [hl]

/-- C1, on an example: a line chart over one numeric, one time and one text column is
resolved to the denormalised mode. -/
theorem resolveChartType_spec_witness :
    (mkChart "line" [[1]] [[7]] [["a"]] [] []).inData.resolveChartType
      = "denormalised-scatterline" :=
  ((resolveChartType_spec (mkChart "line" [[1]] [[7]] [["a"]] [] []).inData).1 rfl).2.1.mpr
    (by decide)

/-- C2, as amended: a requested kind outside pie, bar, line, scatter and the two internal
mode names scatterline and denormalised-scatterline reaches the `log.Fatalf` branch; a
kind among pie, bar, line, scatter on a well-formed non-empty table returns a chart. -/
theorem chartType_enumeration (env : Collaborators) (order : MapOrder) (c : cjsChart) :
    (c.inData.ChartType ∉
        ["pie", "bar", "line", "scatter", "scatterline", "denormalised-scatterline"] →
      c.labelsAndDatasets env order
        = Except.error (Failure.fatal ("Unknown chart type: " ++ c.inData.ChartType))) ∧
    (c.inData.ChartType ∈ ["pie", "bar", "line", "scatter"] → c.inData.wellFormed →
      ∃ d : cjsData, c.labelsAndDatasets env order = Except.ok d) := by
  constructor
  · intro h
    have hne : c.inData.ChartType ≠ "line" := fun e => h (by simp [e])
    have hres := resolve_of_ne_line _ hne
    have := dispatch_unknown env order
      { c with inData := { c.inData with ChartType := c.inData.resolveChartType } }
      (by show c.inData.resolveChartType ∉ _; rw [hres]; exact h)
    rw [show c.inData.ChartType = c.inData.resolveChartType from hres.symm]
    exact this
  · intro hmem ⟨hF, hrows, hinv, hrad⟩
    have hfne : ∀ row ∈ c.inData.FSS, row ≠ [] := fun r hr => (hrows r hr).1
    have hk : ∀ row ∈ c.inData.FSS, row.length = (c.inData.FSS.headD []).length :=
      fun r hr => (hrows r hr).2
    have hk1 : 1 ≤ (c.inData.FSS.headD []).length := by
      cases hc : c.inData.FSS with
      | nil => exact absurd hc hF
      | cons r rs =>
        have : r ≠ [] := hfne r (by rw [hc]; exact List.mem_cons_self r rs)
        simpa using List.length_pos.mpr this
    obtain ⟨labels, hl⟩ := marshalLabels_ok env c hinv.2.2.1 (fun _ => hinv.2.2.2)
    simp only [List.mem_cons, List.mem_singleton, List.not_mem_nil, or_false] at hmem
    rcases hmem with hpie | hbar | hline | hscatter
    · exact ⟨_, labelsAndDatasets_pie env order c labels hpie hl
        (fun r hr => by rw [hk r hr]; exact hk1)⟩
    · by_cases h1 : (c.inData.FSS.headD []).length = 1
      · exact ⟨_, labelsAndDatasets_bar_single env order c labels hF
          (fun r hr => by rw [hk r hr]; exact h1) hbar hl⟩
      · exact ⟨_, labelsAndDatasets_bar_multi env order c _ labels hF hk h1 hbar hl⟩
    · by_cases hs : c.inData.SSS = []
      · by_cases ht : c.inData.TSS = []
        · exact ⟨_, labelsAndDatasets_scatterline_plain env order c _ hline hF hs ht hk hk1⟩
        · exact ⟨_, labelsAndDatasets_scatterline_time env order c _ hline hs ht hinv.2.2.2
            (hinv.2.1 ht) hk⟩
      · by_cases ht : c.inData.TSS = []
        · exact ⟨_, labelsAndDatasets_line env order c _ labels hF hk hline hs ht hl⟩
        · exact ⟨_, labelsAndDatasets_denorm env order c hline
            (resolve_line_both _ hline hs ht hinv.2.2.2 hF hfne) hinv hfne⟩
    · by_cases hs : c.inData.SSS = []
      · exact ⟨_, labelsAndDatasets_scatter_plain env order c hscatter hinv hfne hrad hs⟩
      · exact ⟨_, labelsAndDatasets_scatter_text env order c hscatter hinv hfne hrad hs⟩

/-- C2, on examples: the kind "donut" is fatal, and a pie chart over three rows is built. -/
theorem chartType_enumeration_witness :
    (mkChart "donut" [[1]] [] [] [] []).labelsAndDatasets plainEnv MapOrder.firstSeen
        = Except.error (Failure.fatal "Unknown chart type: donut") ∧
    (mkChart "pie" [[10], [20], [30]] [] [] [] []).inData.wellFormed ∧
    ∃ d : cjsData,
      (mkChart "pie" [[10], [20], [30]] [] [] [] []).labelsAndDatasets plainEnv
        MapOrder.firstSeen = Except.ok d := by
  have hw : (mkChart "pie" [[10], [20], [30]] [] [] [] []).inData.wellFormed := by
    simp [inData.wellFormed, inData.rowCountInvariant, inData.radiusBoundsPresent,
      inData.radiusColumn, inData.hasTimes, mkChart]
  exact ⟨(chartType_enumeration plainEnv MapOrder.firstSeen
      (mkChart "donut" [[1]] [] [] [] [])).1 (by decide),
    hw,
    (chartType_enumeration plainEnv MapOrder.firstSeen
      (mkChart "pie" [[10], [20], [30]] [] [] [] [])).2 (by decide) hw⟩

/-- C2, as stated, fails: the kind "scatterline" is outside pie, bar, line, scatter, yet
the `switch` has a case for it and a chart with one series comes back. -/
theorem chartType_enumeration_counterexample :
    "scatterline" ∉ ["pie", "bar", "line", "scatter"] ∧
    ((mkChart "scatterline" [[1, 2]] [] [] [] []).labelsAndDatasets plainEnv
        MapOrder.firstSeen).map
        (fun d => (d.ChartType, d.ActualChartType,
          d.Datasets.map (fun ds => ds.ComplexData.map (fun p => (p.X, p.Y)))))
      = Except.ok ("line", "scatterline", [[("1", "2")]]) :=
  ⟨by decide, rfl⟩

/-- C3, as amended: on a table with at least one numeric row, every numeric row with `k`
columns, in which the rows that supply the labels are not empty (every text row, and
every time row when there is no text row), the bar mode and the normal line mode return
`k` datasets, and the simple data of dataset `i` is column `i` of the rows, rendered, in
row order. -/
theorem bar_line_columns (env : Collaborators) (order : MapOrder) (c : cjsChart) (k : Nat)
    (hne : c.inData.FSS ≠ [])
    (hk : ∀ row ∈ c.inData.FSS, row.length = k)
    (hmode : c.inData.ChartType = "bar" ∨
      (c.inData.ChartType = "line" ∧ c.inData.SSS ≠ [] ∧ c.inData.TSS = []))
    (htext : ∀ r ∈ c.inData.SSS, r ≠ [])
    (htime : c.inData.SSS = [] → ∀ r ∈ c.inData.TSS, r ≠ []) :
    ∃ d : cjsData,
      c.labelsAndDatasets env order = Except.ok d ∧
      d.Datasets.length = k ∧
      ∀ i, i < k → ∃ ds : cjsDataset,
        d.Datasets[i]? = some ds ∧
        ds.SimpleData = c.inData.FSS.map (fun row => env.formatG (row.getD i 0)) := by
  obtain ⟨labels, hl⟩ := marshalLabels_ok env c htext htime
  rcases hmode with hbar | ⟨hline, hs, ht⟩
  · by_cases h1 : k = 1
    · subst h1
      refine ⟨_, labelsAndDatasets_bar_single env order c labels hne hk hbar hl, rfl, ?_⟩
      intro i hi
      have hi0 : i = 0 := by omega
      subst hi0
      exact ⟨_, rfl, rfl⟩
    · refine ⟨_, labelsAndDatasets_bar_multi env order c k labels hne hk h1 hbar hl,
        by simp, ?_⟩
      intro i hi
      simp [List.getElem?_map, List.getElem?_range hi]
  · refine ⟨_, labelsAndDatasets_line env order c k labels hne hk hline hs ht hl, by simp, ?_⟩
    intro i hi
    simp [List.getElem?_map, List.getElem?_range hi]

/-- C3, on the example of the specification: the rows `[1, 2]` and `[3, 4]` as a bar
chart. -/
theorem bar_line_columns_witness :
    ∃ d : cjsData,
      (mkChart "bar" [[1, 2], [3, 4]] [] [] [] []).labelsAndDatasets plainEnv
        MapOrder.firstSeen = Except.ok d ∧
      d.Datasets.length = 2 ∧
      ∀ i, i < 2 → ∃ ds : cjsDataset,
        d.Datasets[i]? = some ds ∧
        ds.SimpleData = [[1, 2], [3, 4]].map (fun row => plainEnv.formatG (row.getD i 0)) :=
  bar_line_columns plainEnv MapOrder.firstSeen (mkChart "bar" [[1, 2], [3, 4]] [] [] [] []) 2
    (by simp [mkChart]) (by simp [mkChart]) (Or.inl rfl) (by simp [mkChart])
    (by simp [mkChart])

/-- C3, as stated, fails: two numeric rows of two columns each, next to two text rows
without any text column, make `marshalLabels` index an empty row, and no chart is
returned. -/
theorem bar_line_columns_counterexample :
    (mkChart "bar" [[1, 2], [3, 4]] [] [[], []] [] []).inData.FSS ≠ [] ∧
    (∀ row ∈ (mkChart "bar" [[1, 2], [3, 4]] [] [[], []] [] []).inData.FSS, row.length = 2) ∧
    (mkChart "bar" [[1, 2], [3, 4]] [] [[], []] [] []).labelsAndDatasets plainEnv
        MapOrder.firstSeen = Except.error Failure.indexOutOfRange :=
  ⟨by simp [mkChart], by simp [mkChart], rfl⟩

/-- C4, as amended: on a table whose numeric rows each have at least one column and in
which the rows that supply the labels are not empty, the kind "pie" returns exactly one
dataset, with `Fill` true, with the rendered column 0 of every row in row order as its
simple data and with `colorFirstN` of the number of rows as its background colour;
`ChartType` and `ActualChartType` are "pie" and `UsesTimeScale` is false. -/
theorem pie_single_dataset (env : Collaborators) (order : MapOrder) (c : cjsChart)
    (hkind : c.inData.ChartType = "pie")
    (hrows : ∀ row ∈ c.inData.FSS, 1 ≤ row.length)
    (htext : ∀ r ∈ c.inData.SSS, r ≠ [])
    (htime : c.inData.SSS = [] → ∀ r ∈ c.inData.TSS, r ≠ []) :
    ∃ labels : String,
      c.marshalLabels env = Except.ok labels ∧
      c.labelsAndDatasets env order = Except.ok
        { ChartType := "pie", ActualChartType := "pie", Labels := labels,
          Datasets := [{ Fill := true,
                         SimpleData := c.inData.FSS.map (fun row => env.formatG (row.getD 0 0)),
                         BackgroundColor := env.colorFirstN c.inData.FSS.length }],
          UsesTimeScale := false } := by
  obtain ⟨labels, hl⟩ := marshalLabels_ok env c htext htime
  exact ⟨labels, hl, labelsAndDatasets_pie env order c labels hkind hl hrows⟩

/-- C4, on the example of the specification: the rows `[10]`, `[20]`, `[30]` as a pie. -/
theorem pie_single_dataset_witness :
    ∃ labels : String,
      (mkChart "pie" [[10], [20], [30]] [] [] [] []).marshalLabels plainEnv
        = Except.ok labels ∧
      (mkChart "pie" [[10], [20], [30]] [] [] [] []).labelsAndDatasets plainEnv
        MapOrder.firstSeen = Except.ok
        { ChartType := "pie", ActualChartType := "pie", Labels := labels,
          Datasets := [{ Fill := true,
                         SimpleData := [[10], [20], [30]].map
                           (fun row => plainEnv.formatG (row.getD 0 0)),
                         BackgroundColor := plainEnv.colorFirstN 3 }],
          UsesTimeScale := false } :=
  pie_single_dataset plainEnv MapOrder.firstSeen
    (mkChart "pie" [[10], [20], [30]] [] [] [] []) rfl (by simp [mkChart])
    (by simp [mkChart]) (by simp [mkChart])

/-- C4, as stated, fails: one numeric row with one column, next to a text row without
any text column, makes `marshalLabels` index an empty row, and no chart is returned. -/
theorem pie_single_dataset_counterexample :
    (∀ row ∈ (mkChart "pie" [[10]] [] [[]] [] []).inData.FSS, 1 ≤ row.length) ∧
    (mkChart "pie" [[10]] [] [[]] [] []).labelsAndDatasets plainEnv MapOrder.firstSeen
      = Except.error Failure.indexOutOfRange :=
  ⟨by simp [mkChart], rfl⟩

/-- C5: row/label alignment in `marshalLabels`. Under the row-count invariant the slice
of labels built before joining has one entry per numeric row, and entry `i` is "slice i"
when there are neither text nor time rows, the rendering of the first timestamp of row
`i` when there are time rows and no text rows, and `preprocessLabel` of the first text
value of row `i` when there are text rows. -/
theorem marshalLabels_alignment (env : Collaborators) (c : cjsChart)
    (hinv : c.inData.rowCountInvariant) :
    ∃ ls : List String,
      c.labelList env = Except.ok ls ∧
      ls.length = c.inData.FSS.length ∧
      (c.inData.SSS = [] → c.inData.TSS = [] →
        ∀ i, i < c.inData.FSS.length → ls[i]? = some ("slice " ++ toString i)) ∧
      (c.inData.SSS = [] → c.inData.TSS ≠ [] →
        ∀ i, i < c.inData.FSS.length →
          ls[i]? = some (env.formatTime ((c.inData.TSS.getD i []).getD 0 0))) ∧
      (c.inData.SSS ≠ [] →
        ∀ i, i < c.inData.FSS.length →
          ls[i]? = some (env.preprocessLabel ((c.inData.SSS.getD i []).getD 0 ""))) := by
  obtain ⟨hs, ht, hsne, htne⟩ := hinv
  refine ⟨_, labelList_ok env c hsne (fun _ => htne), ?_, ?_, ?_, ?_⟩
  · by_cases h1 : c.inData.SSS = []
    · by_cases h2 : c.inData.TSS = []
      · simp [h1, h2]
      · simp [h1, h2, ht h2]
    · simp [h1, hs h1]
  · intro h1 h2 i hi
    simp [h1, h2, List.getElem?_range hi]
  · intro h1 h2 i hi
    have hi' : i < c.inData.TSS.length := by rw [ht h2]; exact hi
    simp [h1, h2, List.getElem?_map, List.getElem?_eq_getElem hi', List.getD_eq_getElem _ _ hi']
  · intro h1 i hi
    have hi' : i < c.inData.SSS.length := by rw [hs h1]; exact hi
    simp [h1, List.getElem?_map, List.getElem?_eq_getElem hi', List.getD_eq_getElem _ _ hi']

/-- C5, on an example: two numeric rows next to two time rows give two labels. -/
theorem marshalLabels_alignment_witness :
    (mkChart "bar" [[1], [2]] [[7], [8]] [] [] []).inData.rowCountInvariant ∧
    ∃ ls : List String,
      (mkChart "bar" [[1], [2]] [[7], [8]] [] [] []).labelList plainEnv = Except.ok ls ∧
      ls.length = 2 := by
  have h : (mkChart "bar" [[1], [2]] [[7], [8]] [] [] []).inData.rowCountInvariant := by
    simp [inData.rowCountInvariant, mkChart]
  obtain ⟨ls, h1, h2, _⟩ := marshalLabels_alignment plainEnv _ h
  exact ⟨h, ls, h1, h2⟩

/-- C6: scatter-line mode without time columns. On a table with at least one row, no text
rows, no time rows and `k >= 1` numeric columns in every row, the kind "line" returns
`k - 1` datasets; dataset `n` is labelled "category n" and has one point per row, in row
order, with x the rendered column 0 and y the rendered column `n + 1`, so that no y is
read from column 0. -/
theorem scatterline_plain (env : Collaborators) (order : MapOrder) (c : cjsChart) (k : Nat)
    (hkind : c.inData.ChartType = "line")
    (hne : c.inData.FSS ≠ []) (hs : c.inData.SSS = []) (ht : c.inData.TSS = [])
    (hk : ∀ row ∈ c.inData.FSS, row.length = k) (hk1 : 1 ≤ k) :
    ∃ d : cjsData,
      c.labelsAndDatasets env order = Except.ok d ∧
      d.Datasets.length = k - 1 ∧
      ∀ n, n < k - 1 → ∃ ds : cjsDataset,
        d.Datasets[n]? = some ds ∧
        ds.Label = "category " ++ toString n ∧
        ds.ComplexData = c.inData.FSS.map (fun row =>
          ({ X := env.formatG (row.getD 0 0),
             Y := env.formatG (row.getD (n + 1) 0) } : cjsDataPoint)) := by
  refine ⟨_, labelsAndDatasets_scatterline_plain env order c k hkind hne hs ht hk hk1,
    by simp, ?_⟩
  intro n hn
  simp [List.getElem?_map, List.getElem?_range hn]

/-- C6, on the example of the specification: the rows `[0, 5]`, `[1, 6]`, `[2, 7]`. -/
theorem scatterline_plain_witness :
    ∃ d : cjsData,
      (mkChart "line" [[0, 5], [1, 6], [2, 7]] [] [] [] []).labelsAndDatasets plainEnv
        MapOrder.firstSeen = Except.ok d ∧
      d.Datasets.length = 2 - 1 ∧
      ∀ n, n < 2 - 1 → ∃ ds : cjsDataset,
        d.Datasets[n]? = some ds ∧
        ds.Label = "category " ++ toString n ∧
        ds.ComplexData = [[0, 5], [1, 6], [2, 7]].map (fun row =>
          ({ X := plainEnv.formatG (row.getD 0 0),
             Y := plainEnv.formatG (row.getD (n + 1) 0) } : cjsDataPoint)) :=
  scatterline_plain plainEnv MapOrder.firstSeen
    (mkChart "line" [[0, 5], [1, 6], [2, 7]] [] [] [] []) 2 rfl (by simp [mkChart]) rfl rfl
    (by simp [mkChart]) (by decide)

/-- C7, as amended: scatter-line mode with time columns. On a table with time rows, as
many as the numeric rows and none of them empty, no text rows and `k` numeric columns in
every row, the kind "line" returns one dataset per numeric column, `k` in all, and the
points of dataset `n` have the quoted first timestamp of the row as x and the rendered
column `n` of the row as y. -/
theorem scatterline_time (env : Collaborators) (order : MapOrder) (c : cjsChart) (k : Nat)
    (hkind : c.inData.ChartType = "line")
    (hs : c.inData.SSS = []) (ht : c.inData.TSS ≠ [])
    (htne : ∀ r ∈ c.inData.TSS, r ≠ [])
    (hlen : c.inData.TSS.length = c.inData.FSS.length)
    (hk : ∀ row ∈ c.inData.FSS, row.length = k) :
    ∃ d : cjsData,
      c.labelsAndDatasets env order = Except.ok d ∧
      d.Datasets.length = k ∧
      ∀ n, n < k → ∃ ds : cjsDataset,
        d.Datasets[n]? = some ds ∧
        ds.ComplexData = (List.range c.inData.FSS.length).map (fun r =>
          ({ X := quote ++ env.formatTime ((c.inData.TSS.getD r []).getD 0 0) ++ quote,
             Y := env.formatG ((c.inData.FSS.getD r []).getD n 0) } : cjsDataPoint)) := by
  refine ⟨_, labelsAndDatasets_scatterline_time env order c k hkind hs ht htne hlen hk,
    by simp, ?_⟩
  intro n hn
  simp [List.getElem?_map, List.getElem?_range hn, cjsChart.timeToken]

/-- C7, on an example: one row with two numeric columns and one timestamp. -/
theorem scatterline_time_witness :
    ∃ d : cjsData,
      (mkChart "line" [[1, 2]] [[7]] [] [] []).labelsAndDatasets plainEnv MapOrder.firstSeen
        = Except.ok d ∧
      d.Datasets.length = 2 :=
  (scatterline_time plainEnv MapOrder.firstSeen (mkChart "line" [[1, 2]] [[7]] [] [] []) 2
    rfl rfl (by simp [mkChart]) (by simp [mkChart]) rfl (by simp [mkChart])).imp
    (fun _ h => ⟨h.1, h.2.1⟩)

/-- C7, as stated, fails: one row with the numeric columns 1 and 2 and the timestamp 7
gives two datasets, not one, and the point of the second has column 1 as y, not
column 0. -/
theorem scatterline_time_counterexample :
    ((mkChart "line" [[1, 2]] [[7]] [] [] []).labelsAndDatasets plainEnv MapOrder.firstSeen).map
        (fun d => d.Datasets.map (fun ds => ds.ComplexData.map (fun p => (p.X, p.Y))))
      = Except.ok [[(quote ++ "7" ++ quote, "1")], [(quote ++ "7" ++ quote, "2")]] := by
  rfl

/-- C8, as amended: category grouping in the bubble mode (kind "scatter"). On a table
that satisfies the row-count invariant, has no empty numeric row, and whose bounds
`MinFSS` and `MaxFSS` have an entry for the radius column, a chart is returned and `pts`,
the bubbles built for the rows, are as many as the rows. Without text rows there is one
dataset, labelled "category 0", holding all of them. With text rows the datasets are as
many as the distinct first text values, their labels are those values without repetition,
and each holds the bubbles of the rows of its own category, in row order. The sizes of
the datasets add up to the number of rows, and a table without rows gives the single
dataset "category 0" without points. -/
theorem bubble_grouping (env : Collaborators) (order : MapOrder) (c : cjsChart)
    (hkind : c.inData.ChartType = "scatter")
    (hinv : c.inData.rowCountInvariant) (hfne : ∀ row ∈ c.inData.FSS, row ≠ [])
    (hrad : c.inData.radiusBoundsPresent) :
    ∃ (d : cjsData) (pts : List cjsDataPoint),
      c.labelsAndDatasets env order = Except.ok d ∧
      mapE (c.scatterPoint env) (List.range c.inData.FSS.length) = Except.ok pts ∧
      pts.length = c.inData.FSS.length ∧
      (c.inData.SSS = [] →
        ∃ ds : cjsDataset, d.Datasets = [ds] ∧ ds.Label = "category 0" ∧ ds.ComplexData = pts) ∧
      (c.inData.SSS ≠ [] →
        d.Datasets.length = c.inData.categories.toFinset.card ∧
        (d.Datasets.map (fun ds => ds.Label)).Nodup ∧
        (∀ s, s ∈ d.Datasets.map (fun ds => ds.Label) ↔ s ∈ c.inData.categories) ∧
        (∀ ds ∈ d.Datasets,
          ds.ComplexData =
            ((c.inData.categories.zip pts).filter (fun r => decide (r.1 = ds.Label))).map
              Prod.snd)) ∧
      (d.Datasets.map (fun ds => ds.ComplexData.length)).sum = c.inData.FSS.length ∧
      (c.inData.FSS = [] →
        d.Datasets = [{ Fill := true, Label := "category 0", ComplexData := [],
                        BackgroundColor := env.colorIndex 0,
                        BorderColor := env.colorIndex 0 }]) := by
  have hpts : mapE (c.scatterPoint env) (List.range c.inData.FSS.length)
      = Except.ok ((List.range c.inData.FSS.length).map (fun i => c.bubblePoint env i)) :=
    mapE_ok_of_forall _ _ _
      (fun i hi => scatterPoint_ok env c i hinv hfne hrad (List.mem_range.mp hi))
  by_cases hs : c.inData.SSS = []
  · refine ⟨_, _, labelsAndDatasets_scatter_plain env order c hkind hinv hfne hrad hs, hpts,
      by simp, fun _ => ⟨_, rfl, rfl, rfl⟩, fun h => absurd hs h, by simp, ?_⟩
    intro hF
    simp [hF]
  · have hsl : c.inData.SSS.length = c.inData.FSS.length := hinv.1 hs
    have hrows : c.bubbleRows env
        = c.inData.categories.zip
            ((List.range c.inData.FSS.length).map (fun i => c.bubblePoint env i)) := by
      rw [categories_eq_range c hsl, List.zip_map']
      rfl
    have hfst : (c.bubbleRows env).map Prod.fst = c.inData.categories := by
      rw [categories_eq_range c hsl]
      simp [cjsChart.bubbleRows]
    have hl : (groupsFrom env true (c.bubbleRows env) 0 (distinct c.inData.categories)).map
        (fun e => e.2.Label)
        = (groupsFrom env true (c.bubbleRows env) 0 (distinct c.inData.categories)).map
            Prod.fst :=
      List.map_congr_left (fun e he => (groupsFrom_mem env true _ _ 0 e he).2.1)
    refine ⟨_, _, labelsAndDatasets_scatter_text env order c hkind hinv hfne hrad hs, hpts,
      by simp, fun h => absurd h hs, fun _ => ⟨?_, ?_, ?_, ?_⟩, ?_, ?_⟩
    · simp [groupsFrom_length, length_distinct]
    · simp only [List.map_map]
      show (List.map (fun e : String × cjsDataset => e.2.Label) _).Nodup
      rw [hl, groupsFrom_keys]
      exact nodup_distinct _
    · intro s
      simp only [List.map_map]
      show s ∈ List.map (fun e : String × cjsDataset => e.2.Label) _ ↔ _
      rw [hl, groupsFrom_keys, mem_distinct]
    · intro ds hds
      obtain ⟨e, he, rfl⟩ := List.mem_map.mp hds
      obtain ⟨_, h2, _, h4⟩ := groupsFrom_mem env true _ _ 0 e he
      rw [h4, h2, hrows]
    · simp only [List.map_map]
      show (List.map (fun e : String × cjsDataset => e.2.ComplexData.length) _).sum = _
      rw [groupsFrom_sizes, hfst, sum_count_distinct, categories_eq_range c hsl]
      simp
    · intro hF
      rw [hF] at hsl
      exact absurd (List.length_eq_zero.mp hsl) hs

/-- C8, on an example: three rows in the categories a, b, a make two datasets that hold
three bubbles between them. -/
theorem bubble_grouping_witness :
    ∃ d : cjsData,
      (mkChart "scatter" [[1, 2, 30], [2, 3, 40], [5, 6, 0]] [] [["a"], ["b"], ["a"]]
        [0, 0, 0] [9, 9, 40]).labelsAndDatasets plainEnv MapOrder.firstSeen = Except.ok d ∧
      (d.Datasets.map (fun ds => ds.ComplexData.length)).sum = 3 := by
  obtain ⟨d, _, h1, _, _, _, _, h2, _⟩ := bubble_grouping plainEnv MapOrder.firstSeen
    (mkChart "scatter" [[1, 2, 30], [2, 3, 40], [5, 6, 0]] [] [["a"], ["b"], ["a"]]
      [0, 0, 0] [9, 9, 40]) rfl
    (by simp [inData.rowCountInvariant, mkChart]) (by simp [mkChart])
    (by simp [inData.radiusBoundsPresent, inData.radiusColumn, inData.hasTimes, mkChart])
  exact ⟨d, h1, h2⟩

/-- C8, as stated, fails: one row with three numeric columns and no bounds satisfies the
row-count invariant and has no empty row, yet the radius needs `MinFSS[2]` and no chart
is returned. -/
theorem bubble_grouping_counterexample :
    (mkChart "scatter" [[1, 2, 3]] [] [] [] []).inData.rowCountInvariant ∧
    (∀ row ∈ (mkChart "scatter" [[1, 2, 3]] [] [] [] []).inData.FSS, row ≠ []) ∧
    (mkChart "scatter" [[1, 2, 3]] [] [] [] []).labelsAndDatasets plainEnv MapOrder.firstSeen
      = Except.error Failure.indexOutOfRange :=
  ⟨by simp [inData.rowCountInvariant, mkChart], by simp [mkChart], rfl⟩

/-- C9, as amended: category grouping in the denormalised mode. On a table that satisfies
the row-count invariant, has no empty numeric row and is resolved from "line" to
"denormalised-scatterline", whatever the order in which the map of datasets is ranged
over, a chart is returned; the labels of its datasets are the distinct first text values,
each once; every dataset holds the points of the rows of its own category, in row order;
and the sizes of the datasets add up to the number of rows. -/
theorem denormalised_grouping (env : Collaborators) (order : MapOrder) (c : cjsChart)
    (hkind : c.inData.ChartType = "line")
    (hres : c.inData.resolveChartType = "denormalised-scatterline")
    (hinv : c.inData.rowCountInvariant)
    (hfne : ∀ row ∈ c.inData.FSS, row ≠ []) :
    ∃ d : cjsData,
      c.labelsAndDatasets env order = Except.ok d ∧
      (d.Datasets.map (fun ds => ds.Label)).Nodup ∧
      (∀ s, s ∈ d.Datasets.map (fun ds => ds.Label) ↔
        s ∈ c.inData.SSS.map (fun r => r.getD 0 "")) ∧
      (∀ ds ∈ d.Datasets,
        ds.ComplexData =
          ((List.range c.inData.FSS.length).filter
            (fun i => decide ((c.inData.SSS.getD i []).getD 0 "" = ds.Label))).map
            (fun i =>
              ({ X := quote ++ env.formatTime ((c.inData.TSS.getD i []).getD 0 0) ++ quote,
                 Y := env.formatG ((c.inData.FSS.getD i []).getD 0 0) } : cjsDataPoint))) ∧
      (d.Datasets.map (fun ds => ds.ComplexData.length)).sum = c.inData.FSS.length := by
  obtain ⟨hs, ht⟩ := resolve_denorm _ hkind hres
  have hsl : c.inData.SSS.length = c.inData.FSS.length := hinv.1 hs
  have hcats : (c.timeRows env).map Prod.fst = c.inData.SSS.map (fun r => r.getD 0 "") := by
    unfold cjsChart.timeRows
    rw [List.map_map, ← hsl]
    exact range_map_getD c.inData.SSS [] (fun r => r.getD 0 "")
  have hperm := order.perm (groupsFrom env false (c.timeRows env) 0
    (distinct ((c.timeRows env).map Prod.fst)))
  have hlabel : (order.visit (groupsFrom env false (c.timeRows env) 0
      (distinct ((c.timeRows env).map Prod.fst)))).map (fun e => e.2.Label)
      = (order.visit (groupsFrom env false (c.timeRows env) 0
          (distinct ((c.timeRows env).map Prod.fst)))).map Prod.fst := by
    apply List.map_congr_left
    intro e he
    exact (groupsFrom_mem env false _ _ 0 e (hperm.mem_iff.mp he)).2.1
  have hkeys : ((order.visit (groupsFrom env false (c.timeRows env) 0
      (distinct ((c.timeRows env).map Prod.fst)))).map Prod.fst).Perm
      (distinct ((c.timeRows env).map Prod.fst)) := by
    have := hperm.map Prod.fst
    rwa [groupsFrom_keys] at this
  refine ⟨_, labelsAndDatasets_denorm env order c hkind hres hinv hfne, ?_, ?_, ?_, ?_⟩
  · simp only [List.map_map]
    show (List.map (fun e : String × cjsDataset => e.2.Label) _).Nodup
    rw [hlabel]
    exact hkeys.nodup_iff.mpr (nodup_distinct _)
  · intro s
    simp only [List.map_map]
    show s ∈ List.map (fun e : String × cjsDataset => e.2.Label) _ ↔ _
    rw [hlabel, hkeys.mem_iff, mem_distinct, hcats]
  · intro ds hds
    obtain ⟨e, he, rfl⟩ := List.mem_map.mp hds
    obtain ⟨_, h2, _, h4⟩ := groupsFrom_mem env false _ _ 0 e (hperm.mem_iff.mp he)
    rw [h4, h2]
    unfold cjsChart.timeRows
    rw [List.filter_map, List.map_map]
    rfl
  · simp only [List.map_map]
    show (List.map (fun e : String × cjsDataset => e.2.ComplexData.length) _).sum = _
    rw [(hperm.map _).sum_eq, groupsFrom_sizes, sum_count_distinct]
    simp [cjsChart.timeRows]

/-- C9, on an example: three rows in the categories a, b, a, ranged over in reverse. -/
theorem denormalised_grouping_witness :
    ∃ d : cjsData,
      (mkChart "line" [[1], [2], [3]] [[7], [8], [9]] [["a"], ["b"], ["a"]] [] []
        ).labelsAndDatasets plainEnv MapOrder.lastSeen = Except.ok d ∧
      (d.Datasets.map (fun ds => ds.ComplexData.length)).sum = 3 := by
  obtain ⟨d, h1, _, _, _, h2⟩ := denormalised_grouping plainEnv MapOrder.lastSeen
    (mkChart "line" [[1], [2], [3]] [[7], [8], [9]] [["a"], ["b"], ["a"]] [] []) rfl
    (by decide) (by simp [inData.rowCountInvariant, mkChart]) (by simp [mkChart])
  exact ⟨d, h1, h2⟩

/-- C9, as stated, fails: one numeric row without any column, next to a time row with two
timestamps and a text row, satisfies the row-count invariant and is resolved to the
denormalised mode, yet the point needs `FSS[0][0]` and no chart is returned. -/
theorem denormalised_grouping_counterexample :
    (mkChart "line" [[]] [[7, 8]] [["a"]] [] []).inData.rowCountInvariant ∧
    (mkChart "line" [[]] [[7, 8]] [["a"]] [] []).inData.resolveChartType
      = "denormalised-scatterline" ∧
    (mkChart "line" [[]] [[7, 8]] [["a"]] [] []).labelsAndDatasets plainEnv
        MapOrder.firstSeen = Except.error Failure.indexOutOfRange :=
  ⟨by simp [inData.rowCountInvariant, mkChart], by decide, rfl⟩

/-- C10: the order of the datasets in the denormalised mode is the order in which `range`
visits the map `mdss`, which Go leaves unspecified. On two rows in the categories a and b
the visit in insertion order returns the datasets a, b, and the visit in the reverse
order returns b, a: the same input, two admissible results. -/
theorem denormalised_order_unspecified :
    ((mkChart "line" [[1], [2]] [[7], [8]] [["a"], ["b"]] [] []).labelsAndDatasets plainEnv
        MapOrder.firstSeen).map (fun d => d.Datasets.map (fun ds => ds.Label))
      = Except.ok ["a", "b"] ∧
    ((mkChart "line" [[1], [2]] [[7], [8]] [["a"], ["b"]] [] []).labelsAndDatasets plainEnv
        MapOrder.lastSeen).map (fun d => d.Datasets.map (fun ds => ds.Label))
      = Except.ok ["b", "a"] :=
  ⟨rfl, rfl⟩

/-- C11, as amended: first-seen category order in the bubble mode (kind "scatter"). On a
table with text rows, none of them empty, every chart that is returned has one dataset
per distinct first text value; dataset `j` is labelled with the `j`-th of these values in
the order of their first appearance in the rows, and its background and border colours
are `colorIndex j`. A chart is returned when the table moreover satisfies the row-count
invariant, has no empty numeric row and has bounds for the radius column. -/
theorem bubble_first_seen (env : Collaborators) (order : MapOrder) (c : cjsChart)
    (hkind : c.inData.ChartType = "scatter")
    (hs : c.inData.SSS ≠ []) (htext : ∀ r ∈ c.inData.SSS, r ≠ []) :
    (∀ d, c.labelsAndDatasets env order = Except.ok d →
      d.Datasets.length = (distinct c.inData.categories).length ∧
      ∀ j, j < (distinct c.inData.categories).length → ∃ ds : cjsDataset,
        d.Datasets[j]? = some ds ∧
        ds.Label = (distinct c.inData.categories).getD j "" ∧
        ds.BackgroundColor = env.colorIndex j ∧ ds.BorderColor = env.colorIndex j) ∧
    (c.inData.rowCountInvariant → (∀ row ∈ c.inData.FSS, row ≠ []) →
      c.inData.radiusBoundsPresent →
      ∃ d, c.labelsAndDatasets env order = Except.ok d) := by
  have hres : c.inData.resolveChartType = "scatter" := by
    rw [resolve_of_ne_line _ (by rw [hkind]; decide), hkind]
  constructor
  · intro d hd
    have hloop := dispatch_scatter_text_loop env order
      { c with inData := { c.inData with ChartType := c.inData.resolveChartType } }
      hres hs htext
    have hd' : cjsChart.dispatch env order
        { c with inData := { c.inData with ChartType := c.inData.resolveChartType } }
        = Except.ok d := hd
    rw [hloop] at hd'
    cases hl : cjsChart.scatterLoop env
        { c with inData := { c.inData with ChartType := c.inData.resolveChartType } }
        (cssFrom 0 (distinct c.inData.categories)) (List.range c.inData.FSS.length)
        ((groupsFrom env true [] 0 (distinct c.inData.categories)).map Prod.snd) false with
    | error e =>
      have hl' := hl
      simp only [inData.categories] at hd' hl'
      rw [hl'] at hd'
      cases hd'
    | ok r =>
      have hl' := hl
      simp only [inData.categories] at hd' hl'
      rw [hl'] at hd'
      simp only [Except.map] at hd'
      injection hd' with hd'
      subst hd'
      have hh := scatterLoop_header env _ _ _ _ _ r hl
      have hlen : r.1.length = (distinct c.inData.categories).length := by
        have := congrArg List.length hh
        simpa [groupsFrom_length] using this
      refine ⟨hlen, ?_⟩
      intro j hj
      have hj' : j < r.1.length := by rw [hlen]; exact hj
      have hget := congrArg (fun l => l[j]?) hh
      simp only [List.getElem?_map, groupsFrom_getElem?, List.getElem?_eq_getElem hj',
        List.getElem?_eq_getElem hj, Option.map_some', Nat.zero_add] at hget
      injection hget with hget
      simp only [cjsDataset.header, groupDataset, Prod.mk.injEq] at hget
      refine ⟨r.1[j], List.getElem?_eq_getElem hj', ?_, hget.2.1, hget.2.2⟩
      rw [hget.1, List.getD_eq_getElem _ _ hj]
  · intro hinv hfne hrad
    exact ⟨_, labelsAndDatasets_scatter_text env order c hkind hinv hfne hrad hs⟩

/-- C11, on an example: three rows in the categories b, a, b give the datasets b, a. -/
theorem bubble_first_seen_witness :
    ∃ d : cjsData,
      (mkChart "scatter" [[1], [2], [3]] [] [["b"], ["a"], ["b"]] [] []).labelsAndDatasets
        plainEnv MapOrder.firstSeen = Except.ok d ∧
      d.Datasets.length = 2 ∧
      ∃ ds : cjsDataset, d.Datasets[1]? = some ds ∧ ds.Label = "a" ∧
        ds.BackgroundColor = plainEnv.colorIndex 1 := by
  have h := bubble_first_seen plainEnv MapOrder.firstSeen
    (mkChart "scatter" [[1], [2], [3]] [] [["b"], ["a"], ["b"]] [] []) rfl
    (by simp [mkChart]) (by simp [mkChart])
  obtain ⟨d, hd⟩ := h.2 (by simp [inData.rowCountInvariant, mkChart]) (by simp [mkChart])
    (by simp [inData.radiusBoundsPresent, inData.radiusColumn, inData.hasTimes, mkChart])
  obtain ⟨h1, h2⟩ := h.1 d hd
  obtain ⟨ds, h3, h4, h5, _⟩ := h2 1 (by decide)
  exact ⟨d, hd, h1, ds, h3, h4, h5⟩

/-- C11, as stated, fails: one text row with a value, next to one numeric row without
any column, makes the row loop read `FSS[0][0]`, and no dataset is returned. -/
theorem bubble_first_seen_counterexample :
    (mkChart "scatter" [[]] [] [["a"]] [] []).inData.SSS ≠ [] ∧
    (∀ r ∈ (mkChart "scatter" [[]] [] [["a"]] [] []).inData.SSS, r ≠ []) ∧
    (mkChart "scatter" [[]] [] [["a"]] [] []).labelsAndDatasets plainEnv MapOrder.firstSeen
      = Except.error Failure.indexOutOfRange :=
  ⟨by simp [mkChart], by simp [mkChart], rfl⟩

/-- C12: empty-input stability. On the table without any row the kinds "pie" and
"scatter" return a chart, while "bar" reads `FSS[0]` in `len(c.inData.FSS[0])` and "line",
reclassified to the scatter-line mode, reads it in `range c.inData.FSS[0]`: both stop on
an index out of range. -/
theorem empty_table_results :
    ((mkChart "pie" [] [] [] [] []).labelsAndDatasets plainEnv MapOrder.firstSeen).map
        (fun d => d.Datasets.map (fun ds => (ds.Label, ds.SimpleData, ds.ComplexData)))
      = Except.ok [("", [], [])] ∧
    ((mkChart "scatter" [] [] [] [] []).labelsAndDatasets plainEnv MapOrder.firstSeen).map
        (fun d => d.Datasets.map (fun ds => (ds.Label, ds.SimpleData, ds.ComplexData)))
      = Except.ok [("category 0", [], [])] ∧
    (mkChart "bar" [] [] [] [] []).labelsAndDatasets plainEnv MapOrder.firstSeen
      = Except.error Failure.indexOutOfRange ∧
    (mkChart "line" [] [] [] [] []).labelsAndDatasets plainEnv MapOrder.firstSeen
      = Except.error Failure.indexOutOfRange :=
  ⟨rfl, rfl, rfl, rfl⟩

/-- C13: the two branches of `scatterRadius` over exact arithmetic. When `max - min < 50`
the radius is `x - min + 4`; when `max - min >= 50` it is
`4 + (x - min) / (max - min) * 50`; the value 30 gives 34 in the range 0 to 40 and 19 in
the range 0 to 100. -/
theorem scatterRadius_branches :
    (∀ x min max : ℚ, max - min < 50 → scatterRadius x min max = x - min + 4) ∧
    (∀ x min max : ℚ, max - min ≥ 50 →
      scatterRadius x min max = 4 + (x - min) / (max - min) * 50) ∧
    scatterRadius 30 0 40 = 34 ∧ scatterRadius 30 0 100 = 19 := by
  refine ⟨?_, ?_, ?_, ?_⟩
  · intro x min max h
    simp [scatterRadius, h]
  · intro x min max h
    have : ¬ (max - min < 50) := not_lt.mpr h
    simp [scatterRadius, this]
  · norm_num [scatterRadius]
  · norm_num [scatterRadius]

/-- C13, on the two examples of the specification. -/
theorem scatterRadius_branches_witness :
    scatterRadius 30 0 40 = 30 - 0 + 4 ∧
    scatterRadius 30 0 100 = 4 + (30 - 0) / (100 - 0) * 50 :=
  ⟨scatterRadius_branches.1 30 0 40 (by norm_num),
   scatterRadius_branches.2.1 30 0 100 (by norm_num)⟩

/-- C14: radius monotonicity. For fixed bounds with `max - min >= 50` the radius does not
decrease when the value grows. -/
theorem scatterRadius_mono (min max x1 x2 : ℚ) (hrange : max - min ≥ 50) (hx : x1 ≤ x2) :
    scatterRadius x1 min max ≤ scatterRadius x2 min max := by
  have hnot : ¬ (max - min < 50) := not_lt.mpr hrange
  have hpos : (0 : ℚ) < max - min := by linarith
  simp only [scatterRadius, hnot, if_false]
  have h1 : (x1 - min) / (max - min) ≤ (x2 - min) / (max - min) :=
    div_le_div_of_nonneg_right (by linarith) hpos.le
  linarith

/-- C14, on an example: the values 10 and 30 in the range 0 to 100. -/
theorem scatterRadius_mono_witness :
    scatterRadius 10 0 100 ≤ scatterRadius 30 0 100 :=
  scatterRadius_mono 0 100 10 30 (by norm_num) (by norm_num)

/-- C15: radius range. For `min <= x <= max` with `max - min >= 50` the radius lies
between 4 and 54; it is 4 at `x = min` and 54 at `x = max`. -/
theorem scatterRadius_range (x min max : ℚ) (hrange : max - min ≥ 50)
    (hlo : min ≤ x) (hhi : x ≤ max) :
    4 ≤ scatterRadius x min max ∧ scatterRadius x min max ≤ 54 ∧
    scatterRadius min min max = 4 ∧ scatterRadius max min max = 54 := by
  have hnot : ¬ (max - min < 50) := not_lt.mpr hrange
  have hpos : (0 : ℚ) < max - min := by linarith
  simp only [scatterRadius, hnot, if_false]
  have h0 : 0 ≤ (x - min) / (max - min) := div_nonneg (by linarith) hpos.le
  have h1 : (x - min) / (max - min) ≤ 1 := by
    rw [div_le_one hpos]
    linarith
  refine ⟨by linarith, by linarith, by simp, ?_⟩
  rw [div_self (ne_of_gt hpos)]
  norm_num

/-- C15, on an example: the value 30 in the range 0 to 100. -/
theorem scatterRadius_range_witness :
    4 ≤ scatterRadius 30 0 100 ∧ scatterRadius 30 0 100 ≤ 54 ∧
    scatterRadius 0 0 100 = 4 ∧ scatterRadius 100 0 100 = 54 :=
  scatterRadius_range 30 0 100 (by norm_num) (by norm_num) (by norm_num)

/-- C16: what `UsesTimeScale` says. On a well-formed non-empty table with a requested
kind among pie, bar, line and scatter a chart is returned, and its `UsesTimeScale` is true
exactly when some dataset has a point whose x token is the quoted first timestamp of a
time row. It is false when the chart type is resolved to "pie", "bar" or "line", whether
or not there are time rows; and when the chart type is resolved to "scatterline",
"denormalised-scatterline" or "scatter" it is true exactly when there are time rows and
some dataset has a point. -/
theorem usesTimeScale_spec (env : Collaborators) (order : MapOrder) (c : cjsChart)
    (hreq : c.inData.ChartType ∈ ["pie", "bar", "line", "scatter"])
    (hwf : c.inData.wellFormed) :
    ∃ d : cjsData,
      c.labelsAndDatasets env order = Except.ok d ∧
      (d.UsesTimeScale = true ↔
        ∃ ds ∈ d.Datasets, ∃ p ∈ ds.ComplexData, c.hasTimeX env p) ∧
      (c.inData.resolveChartType = "pie" ∨ c.inData.resolveChartType = "bar" ∨
          c.inData.resolveChartType = "line" → d.UsesTimeScale = false) ∧
      (c.inData.resolveChartType = "scatterline" ∨
          c.inData.resolveChartType = "denormalised-scatterline" ∨
          c.inData.resolveChartType = "scatter" →
        (d.UsesTimeScale = true ↔
          c.inData.TSS ≠ [] ∧ ∃ ds ∈ d.Datasets, ds.ComplexData ≠ [])) := by
  obtain ⟨hF, hrows, hinv, hrad⟩ := hwf
  have hfne : ∀ row ∈ c.inData.FSS, row ≠ [] := fun r hr => (hrows r hr).1
  have hk : ∀ row ∈ c.inData.FSS, row.length = (c.inData.FSS.headD []).length :=
    fun r hr => (hrows r hr).2
  have hk1 : 1 ≤ (c.inData.FSS.headD []).length := by
    cases hc : c.inData.FSS with
    | nil => exact absurd hc hF
    | cons r rs =>
      have : r ≠ [] := hfne r (by rw [hc]; exact List.mem_cons_self r rs)
      simpa using List.length_pos.mpr this
  have hn : 0 < c.inData.FSS.length := List.length_pos.mpr hF
  have h0 : 0 ∈ List.range c.inData.FSS.length := List.mem_range.mpr hn
  obtain ⟨labels, hl⟩ := marshalLabels_ok env c hinv.2.2.1 (fun _ => hinv.2.2.2)
  simp only [List.mem_cons, List.mem_singleton, List.not_mem_nil, or_false] at hreq
  rcases hreq with hpie | hbar | hline | hscatter
  · have hres : c.inData.resolveChartType = "pie" := by
      rw [resolve_of_ne_line _ (by rw [hpie]; decide), hpie]
    exact ⟨_, labelsAndDatasets_pie env order c labels hpie hl
        (fun r hr => by rw [hk r hr]; exact hk1),
      timeScale_simple env c _ _ rfl (by simp) (Or.inl hres)⟩
  · have hres : c.inData.resolveChartType = "bar" := by
      rw [resolve_of_ne_line _ (by rw [hbar]; decide), hbar]
    by_cases h1 : (c.inData.FSS.headD []).length = 1
    · exact ⟨_, labelsAndDatasets_bar_single env order c labels hF
          (fun r hr => by rw [hk r hr]; exact h1) hbar hl,
        timeScale_simple env c _ _ rfl (by simp) (Or.inr (Or.inl hres))⟩
    · refine ⟨_, labelsAndDatasets_bar_multi env order c _ labels hF hk h1 hbar hl,
        timeScale_simple env c _ _ rfl ?_ (Or.inr (Or.inl hres))⟩
      intro ds hds
      obtain ⟨i, _, rfl⟩ := List.mem_map.mp hds
      rfl
  · by_cases hs : c.inData.SSS = []
    · have hres : c.inData.resolveChartType = "scatterline" := resolve_line_plain _ hline hs
      by_cases ht : c.inData.TSS = []
      · exact ⟨_, labelsAndDatasets_scatterline_plain env order c _ hline hF hs ht hk hk1,
          timeScale_plain env c _ _ rfl ht⟩
      · refine ⟨_, labelsAndDatasets_scatterline_time env order c _ hline hs ht hinv.2.2.2
            (hinv.2.1 ht) hk,
          timeScale_time env c _ _ ?_ ht ?_ (Or.inl hres)⟩
        · show (!(List.range (c.inData.FSS.headD []).length).isEmpty) = true
          rw [range_isEmpty_false _ hk1]
          rfl
        · refine ⟨_, List.mem_map.mpr ⟨0, List.mem_range.mpr hk1, rfl⟩, _,
            List.mem_map.mpr ⟨0, h0, rfl⟩, 0, List.length_pos.mpr ht, rfl⟩
    · by_cases ht : c.inData.TSS = []
      · have hres : c.inData.resolveChartType = "line" := resolve_line_text _ hline hs ht
        refine ⟨_, labelsAndDatasets_line env order c _ labels hF hk hline hs ht hl,
          timeScale_simple env c _ _ rfl ?_ (Or.inr (Or.inr hres))⟩
        intro ds hds
        obtain ⟨i, _, rfl⟩ := List.mem_map.mp hds
        rfl
      · have hres : c.inData.resolveChartType = "denormalised-scatterline" :=
          resolve_line_both _ hline hs ht hinv.2.2.2 hF hfne
        refine ⟨_, labelsAndDatasets_denorm env order c hline hres hinv hfne,
          timeScale_time env c _ _ rfl ht ?_ (Or.inr (Or.inl hres))⟩
        obtain ⟨e, he, hp⟩ := groupsFrom_first_row env false (c.timeRows env)
          (c.category 0, c.timePoint env 0) (List.mem_map.mpr ⟨0, h0, rfl⟩)
        exact ⟨e.2, List.mem_map.mpr ⟨e, ((order.perm _).mem_iff).mpr he, rfl⟩, _, hp, 0,
          List.length_pos.mpr ht, rfl⟩
  · have hres : c.inData.resolveChartType = "scatter" := by
      rw [resolve_of_ne_line _ (by rw [hscatter]; decide), hscatter]
    by_cases hs : c.inData.SSS = []
    · by_cases ht : c.inData.TSS = []
      · exact ⟨_, labelsAndDatasets_scatter_plain env order c hscatter hinv hfne hrad hs,
          timeScale_plain env c _ _ ((hasTimes_eq_false _).mpr ht) ht⟩
      · refine ⟨_, labelsAndDatasets_scatter_plain env order c hscatter hinv hfne hrad hs,
          timeScale_time env c _ _ ((hasTimes_eq_true _).mpr ht) ht ?_
            (Or.inr (Or.inr hres))⟩
        exact ⟨_, List.mem_singleton.mpr rfl, _, List.mem_map.mpr ⟨0, h0, rfl⟩, 0,
          List.length_pos.mpr ht, bubblePoint_time_x env c 0 ht⟩
    · by_cases ht : c.inData.TSS = []
      · exact ⟨_, labelsAndDatasets_scatter_text env order c hscatter hinv hfne hrad hs,
          timeScale_plain env c _ _ ((hasTimes_eq_false _).mpr ht) ht⟩
      · refine ⟨_, labelsAndDatasets_scatter_text env order c hscatter hinv hfne hrad hs,
          timeScale_time env c _ _ ((hasTimes_eq_true _).mpr ht) ht ?_
            (Or.inr (Or.inr hres))⟩
        have hfst : (c.bubbleRows env).map Prod.fst = c.inData.categories := by
          rw [categories_eq_range c (hinv.1 hs)]
          simp [cjsChart.bubbleRows]
        obtain ⟨e, he, hp⟩ := groupsFrom_first_row env true (c.bubbleRows env)
          (c.category 0, c.bubblePoint env 0) (List.mem_map.mpr ⟨0, h0, rfl⟩)
        rw [hfst] at he
        exact ⟨e.2, List.mem_map.mpr ⟨e, he, rfl⟩, _, hp, 0, List.length_pos.mpr ht,
          bubblePoint_time_x env c 0 ht⟩

/-- C16, on an example: a line chart over one numeric column against one time column. -/
theorem usesTimeScale_spec_witness :
    (mkChart "line" [[1], [2]] [[7], [8]] [] [] []).inData.wellFormed ∧
    ∃ d : cjsData,
      (mkChart "line" [[1], [2]] [[7], [8]] [] [] []).labelsAndDatasets plainEnv
        MapOrder.firstSeen = Except.ok d ∧
      (d.UsesTimeScale = true ↔
        ∃ ds ∈ d.Datasets, ∃ p ∈ ds.ComplexData,
          (mkChart "line" [[1], [2]] [[7], [8]] [] [] []).hasTimeX plainEnv p) := by
  have hw : (mkChart "line" [[1], [2]] [[7], [8]] [] [] []).inData.wellFormed := by
    simp [inData.wellFormed, inData.rowCountInvariant, inData.radiusBoundsPresent,
      inData.radiusColumn, inData.hasTimes, mkChart]
  obtain ⟨d, h1, h2, _⟩ := usesTimeScale_spec plainEnv MapOrder.firstSeen
    (mkChart "line" [[1], [2]] [[7], [8]] [] [] []) (by decide) hw
  exact ⟨hw, d, h1, h2⟩

/-- C17, as amended: bubble point construction. On a table that satisfies the row-count
invariant, has no empty numeric row and has bounds for the radius column, the kind
"scatter" builds for row `i` a point with a radius. With time rows its x is the quoted
first timestamp of the row and its y is numeric column 0; without time rows its x is
numeric column 0 and its y is numeric column 1 when the row has one, else the literal "0".
Its r is `scatterRadius` of the radius column (column 1 with time rows, else column 2)
with the `MinFSS` and `MaxFSS` entries of that column when the row has that column, else
the default "4". -/
theorem bubble_point (env : Collaborators) (c : cjsChart) (i : Nat)
    (hinv : c.inData.rowCountInvariant) (hfne : ∀ row ∈ c.inData.FSS, row ≠ [])
    (hrad : c.inData.radiusBoundsPresent) (hi : i < c.inData.FSS.length) :
    ∃ p : cjsDataPoint,
      c.scatterPoint env i = Except.ok p ∧ p.UsesR = true ∧
      (c.inData.TSS ≠ [] →
        p.X = quote ++ env.formatTime ((c.inData.TSS.getD i []).getD 0 0) ++ quote ∧
        p.Y = env.formatG ((c.inData.FSS.getD i []).getD 0 0)) ∧
      (c.inData.TSS = [] →
        p.X = env.formatG ((c.inData.FSS.getD i []).getD 0 0) ∧
        (2 ≤ (c.inData.FSS.getD i []).length →
          p.Y = env.formatG ((c.inData.FSS.getD i []).getD 1 0)) ∧
        ((c.inData.FSS.getD i []).length < 2 → p.Y = "0")) ∧
      (c.inData.radiusColumn + 1 ≤ (c.inData.FSS.getD i []).length →
        p.R = env.formatV (scatterRadius
          ((c.inData.FSS.getD i []).getD c.inData.radiusColumn 0)
          (c.inData.MinFSS.getD c.inData.radiusColumn 0)
          (c.inData.MaxFSS.getD c.inData.radiusColumn 0))) ∧
      ((c.inData.FSS.getD i []).length < c.inData.radiusColumn + 1 → p.R = "4") := by
  have hp := scatterPoint_ok env c i hinv hfne hrad hi
  unfold cjsChart.bubblePoint at hp
  by_cases ht : c.inData.TSS = []
  · have hT := (hasTimes_eq_false _).mpr ht
    have hcol : c.inData.radiusColumn = 2 := by simp [inData.radiusColumn, hT]
    rw [hT] at hp
    simp only [Bool.false_eq_true, if_false] at hp
    rw [hcol]
    refine ⟨_, hp, rfl, fun h => absurd ht h,
      fun _ => ⟨rfl, fun h2 => if_pos h2, fun h2 => if_neg (by omega)⟩, ?_, ?_⟩
    · intro h
      show c.radiusText env _ 2 = _
      unfold cjsChart.radiusText
      rw [if_pos h]
    · intro h
      show c.radiusText env _ 2 = _
      unfold cjsChart.radiusText
      rw [if_neg (by omega)]
  · have hT := (hasTimes_eq_true _).mpr ht
    have hcol : c.inData.radiusColumn = 1 := by simp [inData.radiusColumn, hT]
    rw [hT] at hp
    simp only [if_true] at hp
    rw [hcol]
    refine ⟨_, hp, rfl, fun _ => ⟨rfl, rfl⟩, fun h => absurd h ht, ?_, ?_⟩
    · intro h
      show c.radiusText env _ 1 = _
      unfold cjsChart.radiusText
      rw [if_pos h]
    · intro h
      show c.radiusText env _ 1 = _
      unfold cjsChart.radiusText
      rw [if_neg (by omega)]

/-- C17, on an example: one row with three numeric columns and no time row. -/
theorem bubble_point_witness :
    ∃ p : cjsDataPoint,
      (mkChart "scatter" [[1, 2, 30]] [] [] [0, 0, 0] [9, 9, 40]).scatterPoint plainEnv 0
        = Except.ok p ∧
      p.UsesR = true := by
  obtain ⟨p, h1, h2, _⟩ := bubble_point plainEnv
    (mkChart "scatter" [[1, 2, 30]] [] [] [0, 0, 0] [9, 9, 40]) 0
    (by simp [inData.rowCountInvariant, mkChart]) (by simp [mkChart])
    (by simp [inData.radiusBoundsPresent, inData.radiusColumn, inData.hasTimes, mkChart])
    (by simp [mkChart])
  exact ⟨p, h1, h2⟩

/-- C17, as stated, fails: for one row with the numeric columns 1 and 2 and the timestamp
7 the point has column 0 as y, where the claim has column 1. -/
theorem bubble_point_counterexample :
    ((mkChart "scatter" [[1, 2]] [[7]] [] [0, 0] [9, 9]).scatterPoint plainEnv 0).map
        (fun p => (p.X, p.Y))
      = Except.ok (quote ++ "7" ++ quote, "1") ∧
    ((mkChart "scatter" [[1, 2]] [[7]] [] [0, 0] [9, 9]).labelsAndDatasets plainEnv
        MapOrder.firstSeen).map
        (fun d => d.Datasets.map (fun ds => ds.ComplexData.map (fun p => (p.X, p.Y))))
      = Except.ok [[(quote ++ "7" ++ quote, "1")]] :=
  ⟨rfl, rfl⟩

/-- C18: metadata pass-through and frame. Whenever `data` returns, `labelsAndDatasets`
returned on the same input; `Title`, `ScaleType`, `XLabel`, `YLabel` and `ZeroBased` of
the result are those of the input, and `ChartType`, `ActualChartType`, `Labels`,
`Datasets` and `UsesTimeScale` are those that `labelsAndDatasets` returned. -/
theorem data_frame (env : Collaborators) (order : MapOrder) (c : cjsChart) (r : cjsData)
    (h : c.data env order = Except.ok r) :
    ∃ d : cjsData,
      c.labelsAndDatasets env order = Except.ok d ∧
      r.Title = c.inData.Title ∧ r.ScaleType = c.inData.ScaleType ∧
      r.XLabel = c.inData.XLabel ∧ r.YLabel = c.inData.YLabel ∧
      r.ZeroBased = c.inData.ZeroBased ∧
      r.ChartType = d.ChartType ∧ r.ActualChartType = d.ActualChartType ∧
      r.Labels = d.Labels ∧ r.Datasets = d.Datasets ∧
      r.UsesTimeScale = d.UsesTimeScale := by
  unfold cjsChart.data at h
  cases hd : c.labelsAndDatasets env order with
  | error e =>
    rw [hd] at h
    cases h
  | ok d =>
    rw [hd] at h
    injection h with h
    subst h
    exact ⟨d, rfl, rfl, rfl, rfl, rfl, rfl, rfl, rfl, rfl, rfl, rfl⟩

/-- C18, on an example: a titled pie chart over two rows. -/
theorem data_frame_witness :
    ∃ r d : cjsData,
      titledPie.data plainEnv MapOrder.firstSeen = Except.ok r ∧
      titledPie.labelsAndDatasets plainEnv MapOrder.firstSeen = Except.ok d ∧
      r.Title = "shares" ∧ r.ZeroBased = true ∧ r.Datasets = d.Datasets := by
  have h : titledPie.data plainEnv MapOrder.firstSeen
      = Except.ok
          { ChartType := "pie", ActualChartType := "pie", Title := "shares",
            ScaleType := "linear", XLabel := "x", YLabel := "y", ZeroBased := true,
            Labels := "slice 0,slice 1",
            Datasets := [{ Fill := true, SimpleData := ["10", "20"],
                           BackgroundColor := "first 2" }],
            TooltipCallback := pieTooltip, UsesTimeScale := false } := rfl
  obtain ⟨d, h1, h2, _, _, _, h3, _, _, _, h4, _⟩ :=
    data_frame plainEnv MapOrder.firstSeen titledPie _ h
  exact ⟨_, d, h, h1, h2, h3, h4⟩

/-- C19: the division guard of `scatterRadius`. With `max = min` the small-range branch
is taken and the radius is `x - min + 4`; and the function with a partial division always
has a value, the one of `scatterRadius`, because the division is reached only with
`max - min >= 50`, where the divisor is not zero. -/
theorem scatterRadius_guard (x min max : ℚ) :
    (max = min → scatterRadius x min max = x - min + 4) ∧
    (¬ (max - min < 50) → max - min ≥ 50 ∧ max - min ≠ 0) ∧
    scatterRadiusGuarded x min max = some (scatterRadius x min max) := by
  refine ⟨?_, ?_, ?_⟩
  · intro h
    subst h
    simp [scatterRadius]
  · intro h
    have h50 : max - min ≥ 50 := not_lt.mp h
    exact ⟨h50, by linarith⟩
  · unfold scatterRadiusGuarded scatterRadius
    by_cases h : max - min < 50
    · simp [h]
    · have h50 : max - min ≥ 50 := not_lt.mp h
      have hne : max - min ≠ 0 := by linarith
      simp [h, hne]

/-- C19, on an example: equal bounds. -/
theorem scatterRadius_guard_witness : scatterRadius 7 3 3 = 7 - 3 + 4 :=
  (scatterRadius_guard 7 3 3).1 rfl

/-- C20, as amended: the denormalised mode implies time rows, for a requested kind among
pie, bar, line and scatter. If the chart type is resolved to "denormalised-scatterline"
then the table has time rows; every point that the mode builds has the quoted first
timestamp of its row as x and the rendered column 0 of its row as y, so the branch
without time is not taken; and on a table that satisfies the row-count invariant and has
no empty numeric row a chart is returned whose points all have that form. A requested
"line" on a table with text rows and without time rows is resolved to "line", whatever
the number of numeric columns, and a chart that is returned has the actual chart type
"line". -/
theorem denormalised_has_times (env : Collaborators) (order : MapOrder) (c : cjsChart)
    (hreq : c.inData.ChartType ∈ ["pie", "bar", "line", "scatter"]) :
    (c.inData.resolveChartType = "denormalised-scatterline" →
      c.inData.hasTimes = true ∧
      (∀ i p, c.denormPoint env i = Except.ok p →
        p.X = quote ++ env.formatTime ((c.inData.TSS.getD i []).getD 0 0) ++ quote ∧
        p.Y = env.formatG ((c.inData.FSS.getD i []).getD 0 0)) ∧
      (c.inData.rowCountInvariant → (∀ row ∈ c.inData.FSS, row ≠ []) →
        ∃ d : cjsData,
          c.labelsAndDatasets env order = Except.ok d ∧
          ∀ ds ∈ d.Datasets, ∀ p ∈ ds.ComplexData, ∃ i, i < c.inData.FSS.length ∧
            p.X = quote ++ env.formatTime ((c.inData.TSS.getD i []).getD 0 0) ++ quote ∧
            p.Y = env.formatG ((c.inData.FSS.getD i []).getD 0 0))) ∧
    (c.inData.ChartType = "line" → c.inData.hasStrings = true → c.inData.hasTimes = false →
      c.inData.resolveChartType = "line" ∧
      ∀ d, c.labelsAndDatasets env order = Except.ok d → d.ActualChartType = "line") := by
  constructor
  · intro hres
    have hkind := resolve_denorm_of_enum _ hreq hres
    have hT : c.inData.hasTimes = true :=
      (hasTimes_eq_true _).mpr (resolve_denorm _ hkind hres).2
    refine ⟨hT, fun i p h => denormPoint_time_form env c i p hT h, ?_⟩
    intro hinv hfne
    refine ⟨_, labelsAndDatasets_denorm env order c hkind hres hinv hfne, ?_⟩
    intro ds hds p hp
    obtain ⟨e, he, rfl⟩ := List.mem_map.mp hds
    have hmem := ((order.perm _).mem_iff).mp he
    obtain ⟨_, _, _, h4⟩ := groupsFrom_mem env false _ _ 0 e hmem
    rw [h4] at hp
    obtain ⟨r, hr, rfl⟩ := List.mem_map.mp hp
    have hr' := (List.mem_filter.mp hr).1
    unfold cjsChart.timeRows at hr'
    obtain ⟨i, hi, rfl⟩ := List.mem_map.mp hr'
    exact ⟨i, List.mem_range.mp hi, rfl, rfl⟩
  · intro hkind hs ht
    have hres : c.inData.resolveChartType = "line" :=
      resolve_line_text _ hkind ((hasStrings_eq_true _).mp hs) ((hasTimes_eq_false _).mp ht)
    exact ⟨hres, fun d h => dispatch_line_actual env order _ d hres h⟩

/-- C20, on an example: one numeric, one time and one text column. -/
theorem denormalised_has_times_witness :
    (mkChart "line" [[1]] [[7]] [["a"]] [] []).inData.resolveChartType
      = "denormalised-scatterline" ∧
    (mkChart "line" [[1]] [[7]] [["a"]] [] []).inData.hasTimes = true :=
  ⟨by decide,
   ((denormalised_has_times plainEnv MapOrder.firstSeen
      (mkChart "line" [[1]] [[7]] [["a"]] [] []) (by decide)).1 (by decide)).1⟩

/-- C20, as stated, fails: the `switch` also takes "denormalised-scatterline" as the
requested kind. On a table without time rows the mode is then entered and its branch
without time builds the point with column 0 as x and column 1 as y. -/
theorem denormalised_has_times_counterexample :
    (mkChart "denormalised-scatterline" [[1, 2]] [] [["a"]] [] []).inData.resolveChartType
      = "denormalised-scatterline" ∧
    (mkChart "denormalised-scatterline" [[1, 2]] [] [["a"]] [] []).inData.hasTimes = false ∧
    ((mkChart "denormalised-scatterline" [[1, 2]] [] [["a"]] [] []).labelsAndDatasets plainEnv
        MapOrder.firstSeen).map
        (fun d => d.Datasets.map (fun ds => ds.ComplexData.map (fun p => (p.X, p.Y))))
      = Except.ok [[("1", "2")]] :=
  ⟨by decide, by decide, rfl⟩

end Chart
